import Mathlib

/-!
Verification of the VibeStream audio-visualizer core against its
natural-language specification.

The development shallowly embeds the relevant parts of
src/components/AudioVisualizer.tsx (the editor revision: the `Particle`
class, the render loop, `handleStartExport`, `cancelExport`, the
`checkProgress` poll and the `recorder.onstop` handler) and of
src/services/geminiService.ts (`analyzeAudioForVisualizer`, the
default-config overlay merge).

Conventions of the embedding:
* JavaScript numbers are modelled as `ℚ` (all arithmetic in the embedded
  code paths is exact on rationals); counts are `ℕ`.
* `Math.random()` draws are threaded explicitly as inputs.  Because
  `Math.cos`/`Math.sin` of a random angle are transcendental, the
  environment supplies the cosine and sine of a spawned particle's random
  angle directly (`SpawnRand.angleCos` / `SpawnRand.angleSin`), and the
  deterministic trigonometry of the spectrum layer is abstracted by a
  `JsMath` record of function parameters; none of these values influence
  control flow or any canvas call that can throw.
* A canvas 2D context is modelled by the list of draw commands issued;
  the canvas operations that can throw per the HTML spec (`arc` with a
  negative radius, `roundRect` with a negative corner radius,
  `createRadialGradient` with a negative radius) are modelled in the
  `Except` monad.  `undefined`/NaN values arising from fractional or
  out-of-bounds `Uint8Array` indexing are modelled with `Option`
  (`none` = NaN), matching the spec rule that a non-finite argument makes
  `roundRect` return without drawing.
-/

namespace VibeStream

abbrev Color := String

/-- Text-overlay part of the configuration (`TextConfig` in types.ts,
the `text` field of the default config in geminiService.ts). -/
structure TextConfig where
  enabled : Bool
  topText : String
  bottomText : String
  fontFamily : String
  fontSize : ℚ
  color : Color
  opacity : ℚ
  letterSpacing : ℚ
  shadow : Bool
deriving Repr, DecidableEq

/-- Lyrics part of the configuration (the `lyrics` field of the default
config in geminiService.ts). -/
structure LyricsConfig where
  enabled : Bool
  content : String
  fontFamily : String
  fontSize : ℚ
  color : Color
  animationStyle : String
  opacity : ℚ
  yOffset : ℚ
deriving Repr, DecidableEq

inductive Mode where
  | circular
  | linear
deriving Repr, DecidableEq

inductive ColorMode where
  | solid
  | gradient
deriving Repr, DecidableEq

inductive SpectrumStyle where
  | bars
  | wave
  | curve
deriving Repr, DecidableEq

/-- The scene configuration (`VisualizerConfig` in types.ts), with
exactly the fields populated by the default config of
`analyzeAudioForVisualizer` and read by the render loop. -/
structure VisualizerConfig where
  presetName : String
  mode : Mode
  primaryColor : Color
  secondaryColor : Color
  backgroundColor : Color
  colorMode : ColorMode
  rainbowMode : Bool
  colorCycleSpeed : ℚ
  sensitivity : ℚ
  smoothing : ℚ
  showBars : Bool
  spectrumStyle : SpectrumStyle
  spectrumScale : ℚ
  barCount : ℕ
  barWidth : ℚ
  barHeightScale : ℚ
  barRoundness : ℚ
  fillOpacity : ℚ
  mirror : Bool
  showParticles : Bool
  particleCount : ℕ
  particleSpeed : ℚ
  bloomStrength : ℚ
  rotationSpeed : ℚ
  cinematicBars : Bool
  vignette : ℚ
  shakeStrength : ℚ
  backgroundImage : Option String
  bgImageOpacity : ℚ
  bgImageBlur : ℚ
  centerImage : Option String
  centerImageSize : ℚ
  centerImageCircular : Bool
  text : TextConfig
  lyrics : LyricsConfig
deriving Repr, DecidableEq

/-! ### Beat detector

`render` computes, when the analyser is ready:
`let bassSum = 0; for(let i=0; i<10; i++) bassSum += dataArray[i];
 bassAvg = bassSum / 10; isBeat = bassAvg > 210;` -/

/-- Sum of the magnitudes of the 10 lowest bins divided by 10. -/
def bassAverage (data : List ℕ) : ℚ :=
  (((List.range 10).foldl (fun s i => s + data.getD i 0) 0 : ℕ) : ℚ) / 10

/-- The per-tick beat signal: true exactly when the bass average exceeds
the fixed threshold 210. -/
def beatSignal (data : List ℕ) : Bool :=
  decide (bassAverage data > 210)

/-! ### Particle subsystem

Embeds the `Particle` class and the particles section of `render`. -/

/-- One particle of the particle subsystem (the `Particle` class). -/
structure Particle where
  x : ℚ
  y : ℚ
  vx : ℚ
  vy : ℚ
  size : ℚ
  color : Color
  life : ℚ
  maxLife : ℚ
deriving Repr, DecidableEq

/-- The `Math.random()` draws consumed by the `Particle` constructor.
`angleCos`/`angleSin` are the cosine and sine of the random angle
`Math.random() * 2π` (supplied by the environment because they are
transcendental); the other three fields are raw `Math.random()` values. -/
structure SpawnRand where
  angleCos : ℚ
  angleSin : ℚ
  rVel : ℚ
  rSize : ℚ
  rLife : ℚ
deriving Repr, DecidableEq

/-- The `Particle` constructor: spawn at the canvas center with a random
outward velocity `(Math.random() * speed + 0.5) * scale`, random size
`(Math.random() * 4 + 1) * scale`, and random
`maxLife = Math.random() * 60 + 40`, with `life = maxLife`. -/
def Particle.init (w h : ℚ) (color : Color) (speed scale : ℚ)
    (r : SpawnRand) : Particle :=
  let velocity : ℚ := (r.rVel * speed + 1/2) * scale
  let ml : ℚ := r.rLife * 60 + 40
  { x := w / 2
    y := h / 2
    vx := r.angleCos * velocity
    vy := r.angleSin * velocity
    size := (r.rSize * 4 + 1) * scale
    color := color
    life := ml
    maxLife := ml }

/-- `Particle.update()`: integrate position by velocity, decrement life,
shrink size by the fixed factor 0.98. -/
def Particle.update (p : Particle) : Particle :=
  { p with
    x := p.x + p.vx
    y := p.y + p.vy
    life := p.life - 1
    size := p.size * (98/100) }

/-- Color chosen for a spawned batch:
random hue in rainbow mode, otherwise primary or secondary at random. -/
def particleColor (cfg : VisualizerConfig) (rHue rPick : ℚ) : Color :=
  if cfg.rainbowMode then
    "hsl(" ++ toString (rHue * 360) ++ ", 100%, 60%)"
  else if rPick > 1/2 then cfg.primaryColor else cfg.secondaryColor

/-- The spawn loop `for(let i=0; i<3; i++) push(new Particle(...))`:
a batch of three particles sharing one color, each with fresh
`Math.random()` draws. -/
def spawnBatch (w h : ℚ) (color : Color) (speed scale : ℚ)
    (rands : Fin 3 → SpawnRand) : List Particle :=
  [Particle.init w h color speed scale (rands 0),
   Particle.init w h color speed scale (rands 1),
   Particle.init w h color speed scale (rands 2)]

/-- The spawn step of the particles section:
`if (isBeat && particles.length < cfg.particleCount)` append a batch of
three new particles. -/
def spawnStep (cfg : VisualizerConfig) (beat : Bool) (w h scale : ℚ)
    (rands : Fin 3 → SpawnRand) (rHue rPick : ℚ)
    (ps : List Particle) : List Particle :=
  if beat ∧ ps.length < cfg.particleCount then
    ps ++ spawnBatch w h (particleColor cfg rHue rPick)
      cfg.particleSpeed scale rands
  else ps

/-- The update/removal loop of the particles section: every particle is
updated, and any particle whose life has reached `≤ 0` is removed.  The
source iterates backward over the array and splices dead particles out
in place; since each element is updated independently and splicing while
iterating backward skips no element, the resulting list is the
order-preserving update-then-cull below. -/
def updateAndCull : List Particle → List Particle
  | [] => []
  | p :: rest =>
      if p.update.life ≤ 0 then updateAndCull rest
      else p.update :: updateAndCull rest

/-- One animation tick of the particle subsystem, exactly the particles
section of `render`: skipped entirely unless `cfg.showParticles`;
otherwise spawn (under beat and cap) then update/cull every particle. -/
def particlesTick (cfg : VisualizerConfig) (beat : Bool) (w h scale : ℚ)
    (rands : Fin 3 → SpawnRand) (rHue rPick : ℚ)
    (ps : List Particle) : List Particle :=
  if cfg.showParticles then
    updateAndCull (spawnStep cfg beat w h scale rands rHue rPick ps)
  else ps

/-! ### Configuration ingestion (geminiService.ts)

`analyzeAudioForVisualizer` parses the model response and applies it as
an overlay onto a hardcoded default configuration:
`return { ...defaultConfig, ...parsed,
          text: { ...defaultConfig.text,
                  color: parsed.primaryColor || "#ffffff" } }`. -/

/-- The hardcoded default ("safety") configuration of
`analyzeAudioForVisualizer`; `cleanName` is the sanitized file name used
as the default top text. -/
def defaultConfig (cleanName : String) : VisualizerConfig where
  presetName := "Default Pulse"
  mode := Mode.circular
  primaryColor := "#a855f7"
  secondaryColor := "#3b82f6"
  backgroundColor := "#050505"
  colorMode := ColorMode.gradient
  rainbowMode := false
  colorCycleSpeed := 1/2
  sensitivity := 3/2
  smoothing := 4/5
  showBars := true
  spectrumStyle := SpectrumStyle.bars
  spectrumScale := 1
  barCount := 64
  barWidth := 6
  barHeightScale := 3/2
  barRoundness := 1
  fillOpacity := 1/2
  mirror := false
  showParticles := true
  particleCount := 50
  particleSpeed := 2
  bloomStrength := 20
  rotationSpeed := 1/2
  cinematicBars := false
  vignette := 3/10
  shakeStrength := 0
  backgroundImage := none
  bgImageOpacity := 1/2
  bgImageBlur := 0
  centerImage := none
  centerImageSize := 1
  centerImageCircular := true
  text :=
    { enabled := true
      topText := cleanName
      bottomText := "VIBESTREAM"
      fontFamily := "Inter"
      fontSize := 40
      color := "#ffffff"
      opacity := 9/10
      letterSpacing := 2
      shadow := true }
  lyrics :=
    { enabled := false
      content := ""
      fontFamily := "Montserrat"
      fontSize := 32
      color := "#ffffff"
      animationStyle := "highlight"
      opacity := 9/10
      yOffset := 0 }

/-- A partial (serialized) text overlay, as arbitrary parsed JSON may
contain: each field present or absent. -/
structure PartialTextConfig where
  enabled : Option Bool := none
  topText : Option String := none
  bottomText : Option String := none
  fontFamily : Option String := none
  fontSize : Option ℚ := none
  color : Option Color := none
  opacity : Option ℚ := none
  letterSpacing : Option ℚ := none
  shadow : Option Bool := none
deriving Repr, DecidableEq

/-- A partial (serialized) configuration object, the shape of the parsed
model response: every top-level field may be present or absent. -/
structure PartialConfig where
  presetName : Option String := none
  mode : Option Mode := none
  primaryColor : Option Color := none
  secondaryColor : Option Color := none
  backgroundColor : Option Color := none
  colorMode : Option ColorMode := none
  rainbowMode : Option Bool := none
  colorCycleSpeed : Option ℚ := none
  sensitivity : Option ℚ := none
  smoothing : Option ℚ := none
  showBars : Option Bool := none
  spectrumStyle : Option SpectrumStyle := none
  spectrumScale : Option ℚ := none
  barCount : Option ℕ := none
  barWidth : Option ℚ := none
  barHeightScale : Option ℚ := none
  barRoundness : Option ℚ := none
  fillOpacity : Option ℚ := none
  mirror : Option Bool := none
  showParticles : Option Bool := none
  particleCount : Option ℕ := none
  particleSpeed : Option ℚ := none
  bloomStrength : Option ℚ := none
  rotationSpeed : Option ℚ := none
  cinematicBars : Option Bool := none
  vignette : Option ℚ := none
  shakeStrength : Option ℚ := none
  backgroundImage : Option (Option String) := none
  bgImageOpacity : Option ℚ := none
  bgImageBlur : Option ℚ := none
  centerImage : Option (Option String) := none
  centerImageSize : Option ℚ := none
  centerImageCircular : Option Bool := none
  text : Option PartialTextConfig := none
  lyrics : Option LyricsConfig := none
deriving Repr, DecidableEq

/-- JavaScript `a || b` on an optional string: an absent or empty
(falsy) value falls through to the default. -/
def jsOrString (o : Option String) (d : String) : String :=
  match o with
  | some s => if s = "" then d else s
  | none => d

/-- The overlay merge performed by `analyzeAudioForVisualizer`:
`{ ...defaultConfig, ...parsed, text: { ...defaultConfig.text,
   color: parsed.primaryColor || "#ffffff" } }`.
Each top-level field present in `parsed` wins over the default; the
later explicit `text:` property then replaces the whole text overlay by
the default text with its `color` set from `parsed.primaryColor`, so a
`text` object inside `parsed` is dropped. -/
def mergeConfig (d : VisualizerConfig) (p : PartialConfig) :
    VisualizerConfig where
  presetName := p.presetName.getD d.presetName
  mode := p.mode.getD d.mode
  primaryColor := p.primaryColor.getD d.primaryColor
  secondaryColor := p.secondaryColor.getD d.secondaryColor
  backgroundColor := p.backgroundColor.getD d.backgroundColor
  colorMode := p.colorMode.getD d.colorMode
  rainbowMode := p.rainbowMode.getD d.rainbowMode
  colorCycleSpeed := p.colorCycleSpeed.getD d.colorCycleSpeed
  sensitivity := p.sensitivity.getD d.sensitivity
  smoothing := p.smoothing.getD d.smoothing
  showBars := p.showBars.getD d.showBars
  spectrumStyle := p.spectrumStyle.getD d.spectrumStyle
  spectrumScale := p.spectrumScale.getD d.spectrumScale
  barCount := p.barCount.getD d.barCount
  barWidth := p.barWidth.getD d.barWidth
  barHeightScale := p.barHeightScale.getD d.barHeightScale
  barRoundness := p.barRoundness.getD d.barRoundness
  fillOpacity := p.fillOpacity.getD d.fillOpacity
  mirror := p.mirror.getD d.mirror
  showParticles := p.showParticles.getD d.showParticles
  particleCount := p.particleCount.getD d.particleCount
  particleSpeed := p.particleSpeed.getD d.particleSpeed
  bloomStrength := p.bloomStrength.getD d.bloomStrength
  rotationSpeed := p.rotationSpeed.getD d.rotationSpeed
  cinematicBars := p.cinematicBars.getD d.cinematicBars
  vignette := p.vignette.getD d.vignette
  shakeStrength := p.shakeStrength.getD d.shakeStrength
  backgroundImage := p.backgroundImage.getD d.backgroundImage
  bgImageOpacity := p.bgImageOpacity.getD d.bgImageOpacity
  bgImageBlur := p.bgImageBlur.getD d.bgImageBlur
  centerImage := p.centerImage.getD d.centerImage
  centerImageSize := p.centerImageSize.getD d.centerImageSize
  centerImageCircular := p.centerImageCircular.getD d.centerImageCircular
  text := { d.text with color := jsOrString p.primaryColor "#ffffff" }
  lyrics := p.lyrics.getD d.lyrics

/-! ### Capture / export pipeline (handleStartExport, cancelExport,
checkProgress, recorder.onstop) -/

/-- `MediaRecorder.state` values reachable in the embedded code. -/
inductive RecState where
  | inactive
  | recording
deriving Repr, DecidableEq

/-- A `MediaRecorder` handle; `id` distinguishes separately constructed
encoder objects. -/
structure Recorder where
  id : ℕ
  mimeType : String
  videoBitsPerSecond : ℕ
  fps : ℕ
  state : RecState
deriving Repr, DecidableEq

/-- Which mime types `MediaRecorder.isTypeSupported` reports, for the
two entries of the probe list. -/
structure CodecSupport where
  vp9 : Bool
  webm : Bool
deriving Repr, DecidableEq

inductive Resolution where
  | r720p
  | r1080p
  | r2k
  | r4k
deriving Repr, DecidableEq

/-- The `RESOLUTIONS` table. -/
def resolutionDims : Resolution → ℕ × ℕ
  | Resolution.r720p => (1280, 720)
  | Resolution.r1080p => (1920, 1080)
  | Resolution.r2k => (2560, 1440)
  | Resolution.r4k => (3840, 2160)

inductive Quality where
  | low
  | medium
  | high
deriving Repr, DecidableEq

/-- The export settings modal state. -/
structure ExportSettings where
  resolution : Resolution
  fps : ℕ
  quality : Quality
deriving Repr, DecidableEq

/-- The bitrate calculation: 8 Mbps default, 4 Mbps for low quality,
25 Mbps for high quality. -/
def bitrateOf : Quality → ℕ
  | Quality.low => 4000000
  | Quality.medium => 8000000
  | Quality.high => 25000000

/-- The component state touched by the capture pipeline: canvas
dimensions, recorder reference, chunk buffer (abstracted to its length),
UI flags, the analyser-to-speakers connection, and the audio element. -/
structure ExportState where
  canvasW : ℕ
  canvasH : ℕ
  recorder : Option Recorder
  nextRecorderId : ℕ
  chunks : ℕ
  isExporting : Bool
  exportProgress : ℚ
  showExportModal : Bool
  hasDownload : Bool
  analyserToSpeakers : Bool
  audioTime : ℚ
  audioPlaying : Bool
deriving Repr, DecidableEq

/-- Outcome of `handleStartExport`. -/
inductive StartResult where
  | started
  | unsupportedAlert
  | setupFailed
deriving Repr, DecidableEq

/-- `handleStartExport`: close the modal, enter the exporting state with
progress 0, resize the canvas to the requested export resolution, probe
the codec list, then construct and start the encoder.  If neither
`video/webm;codecs=vp9` nor `video/webm` is supported, alert and bail
out of the exporting state.  If only `video/webm` is supported, the code
still constructs the recorder with the vp9 mime type, which throws and
is caught by the surrounding try/catch (`setupFailed`).  On success a
fresh recorder is constructed and started, the chunk buffer is cleared,
the analyser is disconnected from the speakers, and the audio element is
rewound and played. -/
def handleStartExport (sup : CodecSupport) (settings : ExportSettings)
    (s : ExportState) : ExportState × StartResult :=
  let dims := resolutionDims settings.resolution
  let s1 : ExportState :=
    { s with
      showExportModal := false
      isExporting := true
      exportProgress := 0
      canvasW := dims.1
      canvasH := dims.2 }
  if ¬ sup.vp9 ∧ ¬ sup.webm then
    ({ s1 with isExporting := false }, StartResult.unsupportedAlert)
  else if ¬ sup.vp9 ∧ sup.webm then
    ({ s1 with isExporting := false }, StartResult.setupFailed)
  else
    let rec0 : Recorder :=
      { id := s1.nextRecorderId
        mimeType := "video/webm;codecs=vp9"
        videoBitsPerSecond := bitrateOf settings.quality
        fps := settings.fps
        state := RecState.recording }
    ({ s1 with
        recorder := some rec0
        nextRecorderId := s1.nextRecorderId + 1
        chunks := 0
        analyserToSpeakers := false
        audioTime := 0
        audioPlaying := true }, StartResult.started)

/-- The `recorder.onstop` handler: assemble the chunks into a blob and
expose its object URL, leave the exporting state, reconnect the analyser
to the speakers, restore the volume, and reset the canvas to the
1920x1080 preview resolution. -/
def recorderOnStop (s : ExportState) : ExportState :=
  { s with
    hasDownload := true
    isExporting := false
    analyserToSpeakers := true
    canvasW := 1920
    canvasH := 1080
    recorder := s.recorder.map (fun r => { r with state := RecState.inactive }) }

/-- The progress value computed by the `checkProgress` 100ms interval:
`Math.min((currentTime / duration) * 100, 99)`. -/
def progressValue (t dur : ℚ) : ℚ :=
  min (t / dur * 100) 99

/-- One firing of the `checkProgress` interval (before the audio has
ended): store the clamped progress percentage. -/
def checkProgressTick (t dur : ℚ) (s : ExportState) : ExportState :=
  { s with exportProgress := progressValue t dur }

/-- `cancelExport`: stop the recorder if it is recording (its `onstop`
handler then fires asynchronously), leave the exporting state, and
reconnect the analyser output to the speakers. -/
def cancelExport (s : ExportState) : ExportState :=
  let s1 :=
    match s.recorder with
    | some r =>
        if r.state = RecState.recording then
          { s with recorder := some { r with state := RecState.inactive } }
        else s
    | none => s
  { s1 with isExporting := false, analyserToSpeakers := true }

/-- The canvas dimensions imposed by the render loop at the start of a
tick: the 1920x1080 preview resolution whenever no recorder exists or
the recorder is inactive, the untouched canvas dimensions otherwise. -/
def renderLoopDims (rec : Option Recorder) (c : ℕ × ℕ) : ℕ × ℕ :=
  match rec with
  | none => (1920, 1080)
  | some r => if r.state = RecState.inactive then (1920, 1080) else c

/-! ### Renderer / frame compositor

The per-frame `render` function is embedded as a function from the frame
inputs to the list of canvas commands it issues.  Canvas operations that
can throw per the HTML spec are modelled in `Except`:
`arc` throws IndexSizeError on a negative radius, `roundRect` throws
RangeError on a negative corner radius (but returns without drawing when
an argument is NaN), and `createRadialGradient` throws IndexSizeError on
a negative radius. -/

/-- Transcendental functions of the JavaScript Math object, supplied as
parameters of the embedding; their values never influence control flow
or any throwing canvas call. -/
structure JsMath where
  cos : ℚ → ℚ
  sin : ℚ → ℚ
  pi : ℚ

/-- A canvas fill/stroke style. -/
inductive FillStyle where
  | color (c : String)
  | linearGrad (c1 c2 : String)
  | radialGrad (c1 c2 : String)
deriving Repr, DecidableEq

/-- Canvas 2D commands issued by the renderer. -/
inductive DrawCmd where
  | fillRect (x y rw rh : ℚ)
  | drawImage (x y rw rh : ℚ)
  | arc (x y r a1 a2 : ℚ) (anticlockwise : Bool)
  | moveTo (x y : ℚ)
  | lineTo (x y : ℚ)
  | beginPath
  | closePath
  | strokePath
  | fillPath
  | clip
  | roundRect (x y rw rh : ℚ) (radii : List ℚ)
  | fillText (txt : String) (x y : ℚ)
  | translate (x y : ℚ)
  | rotate (a : ℚ)
  | scaleOp (sx sy : ℚ)
  | setFillStyle (f : FillStyle)
  | setStrokeStyle (f : FillStyle)
  | setAlpha (a : ℚ)
  | setLineWidth (lw : ℚ)
  | setLineCapRound (b : Bool)
  | setShadow (blur : ℚ) (c : String)
  | setFilterBlur (px : ℚ)
  | setFont (font : String)
  | setLetterSpacing (px : ℚ)
  | save
  | restore
deriving Repr, DecidableEq

/-- `ctx.arc`: throws IndexSizeError when the radius is negative. -/
def arcCmd (x y r a1 a2 : ℚ) (anticlockwise : Bool) :
    Except String DrawCmd :=
  if r < 0 then Except.error "IndexSizeError: arc radius is negative"
  else Except.ok (DrawCmd.arc x y r a1 a2 anticlockwise)

/-- `ctx.roundRect`: a NaN argument (modelled by `none` for the
y/height pair) makes the call return without drawing; otherwise a
negative corner radius throws RangeError. -/
def roundRectCmd (x : ℚ) (yh : Option (ℚ × ℚ)) (rw : ℚ)
    (radii : List ℚ) : Except String (List DrawCmd) :=
  match yh with
  | none => Except.ok []
  | some (y, rh) =>
      if radii.any (fun r => r < 0) then
        Except.error "RangeError: roundRect radius is negative"
      else Except.ok [DrawCmd.roundRect x y rw rh radii]

/-- `ctx.createRadialGradient`: throws IndexSizeError when either
radius is negative. -/
def radialGradient (r0 r1 : ℚ) (c1 c2 : String) :
    Except String FillStyle :=
  if r0 < 0 ∨ r1 < 0 then
    Except.error "IndexSizeError: gradient radius is negative"
  else Except.ok (FillStyle.radialGrad c1 c2)

/-- JavaScript `v || d` on a number: 0 (falsy) falls through to the
default. -/
def jsOrQ (v d : ℚ) : ℚ :=
  if v = 0 then d else v

/-- JavaScript `Uint8Array` indexing by an arbitrary number: a
non-integer or out-of-bounds index yields `undefined` (`none`, which
propagates as NaN through arithmetic). -/
def jsIndexQ (data : List ℕ) (q : ℚ) : Option ℚ :=
  if q.den = 1 ∧ 0 ≤ q.num ∧ q.num.toNat < data.length then
    some ((data.getD q.num.toNat 0 : ℕ) : ℚ)
  else none

/-- Cover-fit placement of an image (preserve aspect ratio, crop to
fill), exactly the branch in the background-image layer. -/
def coverFit (iw ih w h : ℚ) : ℚ × ℚ × ℚ × ℚ :=
  let imgRatio := iw / ih
  let canvasRatio := w / h
  if imgRatio > canvasRatio then
    let dh := h
    let dw := dh * imgRatio
    ((w - dw) / 2, 0, dw, dh)
  else
    let dw := w
    let dh := dw / imgRatio
    (0, (h - dh) / 2, dw, dh)

/-- The rainbow stroke/fill color `hsl(time * 50, 80%, 60%)`. -/
def hslTime (time : ℚ) : String :=
  "hsl(" ++ toString (time * 50) ++ ", 80%, 60%)"

/-- The per-bar rainbow color
`hsl((i / barsToRender) * 360 + time * 100, 100%, 60%)`. -/
def hslBar (i barsToRender : ℕ) (time : ℚ) : String :=
  "hsl(" ++ toString (((i : ℚ) / (barsToRender : ℚ)) * 360 + time * 100)
    ++ ", 100%, 60%)"

/-- Background layer: fill with the background color, then begin the
shake translation. -/
def backgroundCmds (cfg : VisualizerConfig) (w h shakeX shakeY : ℚ) :
    List DrawCmd :=
  [DrawCmd.setFillStyle (FillStyle.color cfg.backgroundColor),
   DrawCmd.fillRect 0 0 w h,
   DrawCmd.save,
   DrawCmd.translate shakeX shakeY]

/-- Background-image layer: drawn cover-fit with optional blur and
opacity when both the decoded image and the config reference exist. -/
def bgImageSectionCmds (cfg : VisualizerConfig) (bgImg : Option (ℚ × ℚ))
    (w h scale : ℚ) : List DrawCmd :=
  match bgImg, cfg.backgroundImage with
  | some (iw, ih), some _ =>
      let fit := coverFit iw ih w h
      [DrawCmd.save]
        ++ (if cfg.bgImageBlur > 0 then
              [DrawCmd.setFilterBlur (cfg.bgImageBlur * scale)]
            else [])
        ++ [DrawCmd.setAlpha cfg.bgImageOpacity,
            DrawCmd.drawImage fit.1 fit.2.1 fit.2.2.1 fit.2.2.2,
            DrawCmd.restore]
  | _, _ => []

/-- The particle update/draw/removal loop with its draw commands:
each particle is updated, drawn as a filled circle at opacity
`max(0, life / maxLife)`, and spliced out if its life reached `≤ 0`. -/
def drawCullE (pi : ℚ) : List Particle →
    Except String (List DrawCmd × List Particle)
  | [] => Except.ok ([], [])
  | p :: rest => do
      let pu := p.update
      let a ← arcCmd pu.x pu.y pu.size 0 (pi * 2) false
      let tail ← drawCullE pi rest
      Except.ok
        ([DrawCmd.save,
          DrawCmd.setAlpha (max 0 (pu.life / pu.maxLife)),
          DrawCmd.setFillStyle (FillStyle.color pu.color),
          DrawCmd.beginPath, a, DrawCmd.fillPath, DrawCmd.restore]
           ++ tail.1,
         if pu.life ≤ 0 then tail.2 else pu :: tail.2)

/-- The particles section of `render`: nothing happens unless
`cfg.showParticles`; otherwise spawn under beat and cap, then
update/draw/cull. -/
def particlesSectionE (cfg : VisualizerConfig) (pi : ℚ) (beat : Bool)
    (w h scale : ℚ) (rands : Fin 3 → SpawnRand) (rHue rPick : ℚ)
    (ps : List Particle) : Except String (List DrawCmd × List Particle) :=
  if cfg.showParticles then
    drawCullE pi (spawnStep cfg beat w h scale rands rHue rPick ps)
  else Except.ok ([], ps)

/-- Point commands of the circular wave/curve loop
(`i` from 0 to `barsToRender` inclusive, closing back onto bin 0). -/
def circularWavePoints (jm : JsMath) (data : List ℕ)
    (barsToRender step : ℕ) (sens hscale scale radius : ℚ) :
    List DrawCmd :=
  (List.range (barsToRender + 1)).map (fun i =>
    let index := if i = barsToRender then 0 else i
    let val : ℚ :=
      if data.length ≠ 0 then ((data.getD (index * step) 0 : ℕ) : ℚ)
      else 10
    let barH := val * sens * hscale * (1/2) * scale
    let angle := ((i : ℚ) / (barsToRender : ℚ)) * (jm.pi * 2)
    let r := radius + barH
    let x := jm.cos angle * r
    let y := jm.sin angle * r
    if i = 0 then DrawCmd.moveTo x y else DrawCmd.lineTo x y)

/-- Circular wave/curve branch: trace the loop of points; the curve
style additionally closes the ring with an inner `arc` (the one canvas
call here that can throw) and fills at `fillOpacity || 0.5`. -/
def circularWaveCurveE (cfg : VisualizerConfig) (jm : JsMath)
    (data : List ℕ) (barsToRender step : ℕ)
    (radius scaledBarWidth scale time : ℚ) (fillStyleBase : FillStyle) :
    Except String (List DrawCmd) := do
  let pts := circularWavePoints jm data barsToRender step
    cfg.sensitivity cfg.barHeightScale scale radius
  let header : List DrawCmd :=
    [DrawCmd.beginPath,
     DrawCmd.setStrokeStyle fillStyleBase,
     DrawCmd.setFillStyle fillStyleBase,
     DrawCmd.setLineWidth scaledBarWidth]
  if cfg.spectrumStyle = SpectrumStyle.curve then do
    let a ← arcCmd 0 0 radius 0 (jm.pi * 2) true
    Except.ok (header ++ pts ++
      [DrawCmd.closePath, a,
       DrawCmd.setAlpha (jsOrQ cfg.fillOpacity (1/2))]
      ++ (if cfg.rainbowMode then
            [DrawCmd.setFillStyle (FillStyle.color (hslTime time))]
          else [])
      ++ [DrawCmd.fillPath, DrawCmd.setAlpha 1]
      ++ (if cfg.rainbowMode then
            [DrawCmd.setStrokeStyle (FillStyle.color (hslTime time))]
          else [])
      ++ [DrawCmd.strokePath])
  else
    Except.ok (header ++ pts ++
      [DrawCmd.closePath]
      ++ (if cfg.rainbowMode then
            [DrawCmd.setStrokeStyle (FillStyle.color (hslTime time))]
          else [])
      ++ [DrawCmd.strokePath])

/-- Circular bars branch: one stroked radial segment per bar; issues no
throwing canvas call. -/
def circularBarsCmds (cfg : VisualizerConfig) (jm : JsMath)
    (data : List ℕ) (barsToRender step : ℕ)
    (radius scaledBarWidth scale time : ℚ) (fillStyleBase : FillStyle) :
    List DrawCmd :=
  ((List.range barsToRender).map (fun i =>
    let val : ℚ :=
      if data.length ≠ 0 then ((data.getD (i * step) 0 : ℕ) : ℚ) else 10
    let barH := val * cfg.sensitivity * cfg.barHeightScale * scale
      + 5 * scale
    let angle := ((i : ℚ) / (barsToRender : ℚ)) * (jm.pi * 2)
    let x1 := jm.cos angle * radius
    let y1 := jm.sin angle * radius
    let x2 := jm.cos angle * (radius + barH)
    let y2 := jm.sin angle * (radius + barH)
    let style : FillStyle :=
      if cfg.rainbowMode then FillStyle.color (hslBar i barsToRender time)
      else if cfg.colorMode = ColorMode.solid then
        FillStyle.color
          (if i % 2 = 0 then cfg.primaryColor else cfg.secondaryColor)
      else fillStyleBase
    [DrawCmd.setStrokeStyle style,
     DrawCmd.setLineWidth scaledBarWidth,
     DrawCmd.setLineCapRound (decide (cfg.barRoundness > 1/2)),
     DrawCmd.beginPath,
     DrawCmd.moveTo x1 y1,
     DrawCmd.lineTo x2 y2,
     DrawCmd.strokePath])).flatten

/-- Point commands of the linear wave/curve loop. -/
def linearWavePoints (cfg : VisualizerConfig) (data : List ℕ)
    (barsToRender step : ℕ) (barW h scale : ℚ) : List DrawCmd :=
  (List.range (barsToRender + 1)).map (fun i =>
    let index := min i (barsToRender - 1)
    let val : ℚ :=
      if data.length ≠ 0 then ((data.getD (index * step) 0 : ℕ) : ℚ)
      else 10
    let barH := val * cfg.sensitivity * cfg.barHeightScale * 2
      * jsOrQ cfg.spectrumScale 1 * scale
    let x := (i : ℚ) * barW
    let y := h - barH
    if i = 0 then DrawCmd.moveTo x y else DrawCmd.lineTo x y)

/-- Linear wave/curve branch: trace the points; the curve style closes
down to the bottom corners and fills at `fillOpacity || 0.6`.  No
throwing canvas call occurs here. -/
def linearWaveCurveCmds (cfg : VisualizerConfig) (data : List ℕ)
    (barsToRender step : ℕ) (barW w h scaledBarWidth scale time : ℚ)
    (fillStyleBase : FillStyle) : List DrawCmd :=
  let header : List DrawCmd :=
    [DrawCmd.beginPath,
     DrawCmd.setStrokeStyle fillStyleBase,
     DrawCmd.setFillStyle fillStyleBase,
     DrawCmd.setLineWidth scaledBarWidth]
  let pts := linearWavePoints cfg data barsToRender step barW h scale
  if cfg.spectrumStyle = SpectrumStyle.curve then
    header ++ pts ++
      [DrawCmd.lineTo w h, DrawCmd.lineTo 0 h, DrawCmd.closePath,
       DrawCmd.setAlpha (jsOrQ cfg.fillOpacity (6/10))]
      ++ (if cfg.rainbowMode then
            [DrawCmd.setFillStyle (FillStyle.color (hslTime time))]
          else [])
      ++ [DrawCmd.fillPath, DrawCmd.setAlpha 1]
  else
    header ++ pts
      ++ (if cfg.rainbowMode then
            [DrawCmd.setStrokeStyle (FillStyle.color (hslTime time))]
          else [])
      ++ [DrawCmd.strokePath]

/-- One bar of the linear bars branch: a `roundRect` (the throwing
call), either mirrored around the vertical center (where a fractional
`Uint8Array` index can yield NaN) or bottom-anchored. -/
def linearBarE (cfg : VisualizerConfig) (data : List ℕ)
    (barsToRender step : ℕ) (barW h scale time : ℚ)
    (fillStyleBase : FillStyle) (i : ℕ) : Except String (List DrawCmd) := do
  let val : ℚ :=
    if data.length ≠ 0 then ((data.getD (i * step) 0 : ℕ) : ℚ) else 10
  let barH := val * cfg.sensitivity * cfg.barHeightScale * 3
    * jsOrQ cfg.spectrumScale 1 * scale
  let x := (i : ℚ) * barW
  let style : FillStyle :=
    if cfg.rainbowMode then FillStyle.color (hslBar i barsToRender time)
    else if cfg.colorMode = ColorMode.solid then
      FillStyle.color
        (if i % 2 = 0 then cfg.primaryColor else cfg.secondaryColor)
    else fillStyleBase
  let r : ℚ := if cfg.barRoundness > 1/2 then min barW barH / 2 else 0
  if cfg.mirror then
    let centerOffset : ℚ := |(barsToRender : ℚ) / 2 - (i : ℚ)|
    let mirrorVal : Option ℚ :=
      if data.length ≠ 0 then jsIndexQ data (centerOffset * (step : ℚ))
      else some 10
    let yh : Option (ℚ × ℚ) := mirrorVal.map (fun v =>
      let mirrorH := v * cfg.sensitivity * cfg.barHeightScale * 3
        * jsOrQ cfg.spectrumScale 1 * scale
      (h / 2 - mirrorH / 2, mirrorH))
    let rr ← roundRectCmd x yh (barW - 1) [r]
    Except.ok ([DrawCmd.setFillStyle style, DrawCmd.beginPath] ++ rr
      ++ [DrawCmd.fillPath])
  else
    let rr ← roundRectCmd x (some (h - barH, barH)) (barW - 1) [r, r, 0, 0]
    Except.ok ([DrawCmd.setFillStyle style, DrawCmd.beginPath] ++ rr
      ++ [DrawCmd.fillPath])

/-- Sequence a command-producing loop body over its index list,
concatenating the commands and propagating a thrown exception. -/
def forLoopE (f : ℕ → Except String (List DrawCmd)) :
    List ℕ → Except String (List DrawCmd)
  | [] => Except.ok []
  | i :: rest => do
      let y ← f i
      let ys ← forLoopE f rest
      Except.ok (y ++ ys)

/-- Linear bars branch: every bar in order. -/
def linearBarsE (cfg : VisualizerConfig) (data : List ℕ)
    (barsToRender step : ℕ) (barW h scale time : ℚ)
    (fillStyleBase : FillStyle) : Except String (List DrawCmd) :=
  forLoopE
    (linearBarE cfg data barsToRender step barW h scale time fillStyleBase)
    (List.range barsToRender)

/-- The spectrum section of `render`: skipped unless `cfg.showBars`;
otherwise advances the rotation angle and draws the configured
circular/linear bars/wave/curve spectrum.  Returns the issued commands
and the updated rotation angle. -/
def spectrumSectionE (cfg : VisualizerConfig) (jm : JsMath)
    (data : List ℕ) (beat : Bool)
    (w h cx cy scale shakeX shakeY rotationAngle time : ℚ) :
    Except String (List DrawCmd × ℚ) :=
  if cfg.showBars then do
    let rotation2 := rotationAngle + cfg.rotationSpeed * (5/1000)
    let radius := 300 * jsOrQ cfg.spectrumScale 1 * scale
    let fillStyleBase : FillStyle :=
      if ¬ cfg.rainbowMode ∧ cfg.colorMode = ColorMode.gradient then
        FillStyle.linearGrad cfg.primaryColor cfg.secondaryColor
      else FillStyle.color cfg.primaryColor
    let dlen := if data.length = 0 then 64 else data.length
    let barsToRender := min cfg.barCount dlen
    let scaledBarWidth := cfg.barWidth * scale
    let header : List DrawCmd :=
      [DrawCmd.save, DrawCmd.translate shakeX shakeY,
       DrawCmd.setShadow (cfg.bloomStrength * scale)
         (if cfg.rainbowMode then "white" else cfg.primaryColor)]
    if cfg.mode = Mode.circular then
      let step := dlen / barsToRender
      let pre : List DrawCmd :=
        [DrawCmd.translate cx cy, DrawCmd.rotate rotation2]
          ++ (if beat then [DrawCmd.scaleOp (102/100) (102/100)] else [])
      if cfg.spectrumStyle = SpectrumStyle.wave
          ∨ cfg.spectrumStyle = SpectrumStyle.curve then do
        let body ← circularWaveCurveE cfg jm data barsToRender step
          radius scaledBarWidth scale time fillStyleBase
        Except.ok (header ++ pre ++ body ++ [DrawCmd.restore], rotation2)
      else
        Except.ok (header ++ pre
          ++ circularBarsCmds cfg jm data barsToRender step radius
               scaledBarWidth scale time fillStyleBase
          ++ [DrawCmd.restore], rotation2)
    else
      let barW := w / (barsToRender : ℚ)
      let step := dlen / barsToRender
      if cfg.spectrumStyle = SpectrumStyle.wave
          ∨ cfg.spectrumStyle = SpectrumStyle.curve then
        Except.ok (header
          ++ linearWaveCurveCmds cfg data barsToRender step barW w h
               scaledBarWidth scale time fillStyleBase
          ++ [DrawCmd.restore], rotation2)
      else do
        let body ← linearBarsE cfg data barsToRender step barW h scale
          time fillStyleBase
        Except.ok (header ++ body ++ [DrawCmd.restore], rotation2)
  else Except.ok ([], rotationAngle)

/-- Center-asset section: drawn (optionally clipped to a circle via
`arc`, the throwing call) when both the decoded image and the config
reference exist, pulse-scaled on beat. -/
def centerImageSectionE (cfg : VisualizerConfig) (jm : JsMath)
    (centerImg : Option (ℚ × ℚ)) (beat : Bool)
    (cx cy scale shakeX shakeY : ℚ) : Except String (List DrawCmd) :=
  match centerImg, cfg.centerImage with
  | some _, some _ => do
      let baseSize := 350 * cfg.centerImageSize * scale
      let pulse : ℚ := if beat then 103/100 else 1
      let size := baseSize * pulse
      let clipCmds ←
        if cfg.centerImageCircular then do
          let a ← arcCmd 0 0 (size / 2) 0 (jm.pi * 2) false
          Except.ok [DrawCmd.beginPath, a, DrawCmd.clip]
        else Except.ok []
      Except.ok ([DrawCmd.save,
        DrawCmd.translate (cx + shakeX) (cy + shakeY)]
        ++ clipCmds
        ++ [DrawCmd.drawImage (-(size / 2)) (-(size / 2)) size size,
            DrawCmd.restore])
  | _, _ => Except.ok []

/-- Text-overlay section: two `fillText` lines positioned near the
bottom in circular mode and near the top in linear mode; issues no
throwing canvas call. -/
def textSectionCmds (cfg : VisualizerConfig)
    (cx h scale shakeX shakeY : ℚ) : List DrawCmd :=
  if cfg.text.enabled then
    let textY : ℚ :=
      if cfg.mode = Mode.circular then h - 150 * scale else 200 * scale
    let scaledFontSize := cfg.text.fontSize * scale
    [DrawCmd.save, DrawCmd.translate shakeX shakeY,
     DrawCmd.setFillStyle (FillStyle.color cfg.text.color),
     DrawCmd.setAlpha cfg.text.opacity,
     DrawCmd.setLetterSpacing (cfg.text.letterSpacing * scale)]
      ++ (if cfg.text.shadow then [DrawCmd.setShadow (15 * scale) "black"]
          else [])
      ++ [DrawCmd.setFont ("bold " ++ toString scaledFontSize ++ "px "
            ++ cfg.text.fontFamily),
          DrawCmd.fillText cfg.text.topText.toUpper cx textY,
          DrawCmd.setFont ("normal " ++ toString (scaledFontSize * (1/2))
            ++ "px " ++ cfg.text.fontFamily),
          DrawCmd.fillText cfg.text.bottomText cx
            (textY + scaledFontSize * (12/10)),
          DrawCmd.restore]
  else []

/-- Vignette section: a radial darkening gradient
(`createRadialGradient` is the throwing call) filled over the frame. -/
def vignetteSectionE (cfg : VisualizerConfig) (w h : ℚ) :
    Except String (List DrawCmd) :=
  if cfg.vignette > 0 then do
    let g ← radialGradient (h / 2) h "transparent"
      ("rgba(0,0,0," ++ toString cfg.vignette ++ ")")
    Except.ok [DrawCmd.save, DrawCmd.setFillStyle g,
      DrawCmd.fillRect 0 0 w h, DrawCmd.restore]
  else Except.ok []

/-- Cinematic-bars section: two opaque letterbox rectangles of height
`0.12 * h`. -/
def cinematicCmds (cfg : VisualizerConfig) (w h : ℚ) : List DrawCmd :=
  if cfg.cinematicBars then
    let barH := h * (12/100)
    [DrawCmd.setFillStyle (FillStyle.color "black"),
     DrawCmd.fillRect 0 0 w barH,
     DrawCmd.fillRect 0 (h - barH) w barH]
  else []

/-- All inputs of one invocation of `render`: the configuration, the
frequency snapshot (`[]` when the analyser is not yet ready), the
decoded image dimensions, the particle list and loop-carried state, the
recorder activity (which decides the canvas dimensions), and the
`Math.random()` draws of this frame. -/
structure RenderInput where
  cfg : VisualizerConfig
  jm : JsMath
  data : List ℕ
  bgImage : Option (ℚ × ℚ)
  centerImage : Option (ℚ × ℚ)
  particles : List Particle
  rotationAngle : ℚ
  time : ℚ
  recorderActive : Bool
  canvasW : ℚ
  canvasH : ℚ
  shakeR1 : ℚ
  shakeR2 : ℚ
  spawnRands : Fin 3 → SpawnRand
  hueR : ℚ
  pickR : ℚ

/-- The outcome of one `render` invocation: the issued commands, the
updated particle list and loop-carried state, and the frame size. -/
structure RenderOutput where
  cmds : List DrawCmd
  particles : List Particle
  rotationAngle : ℚ
  time : ℚ
  width : ℚ
  height : ℚ

/-- The per-frame `render` function: reset the canvas to the preview
resolution unless a recorder is active, read the snapshot, derive beat
and shake, then compose background, background image, particles,
spectrum, center asset, text, vignette and cinematic bars in the fixed
z-order.  An `Except.error` models a thrown exception. -/
def render (inp : RenderInput) : Except String RenderOutput := do
  let cfg := inp.cfg
  let wh : ℚ × ℚ :=
    if ¬ inp.recorderActive then (1920, 1080)
    else (inp.canvasW, inp.canvasH)
  let w := wh.1
  let h := wh.2
  let scaleFactor := w / 1920
  let cx := w / 2
  let cy := h / 2
  let time2 := inp.time + (1/100) * jsOrQ cfg.colorCycleSpeed (1/2)
  let bassAvg : ℚ := if inp.data.isEmpty then 0 else bassAverage inp.data
  let beat : Bool := if inp.data.isEmpty then false else beatSignal inp.data
  let shake : ℚ × ℚ :=
    if cfg.shakeStrength > 0 ∧ bassAvg > 100 then
      let shakeAmt := bassAvg / 255 * cfg.shakeStrength * 10 * scaleFactor
      ((inp.shakeR1 - 1/2) * shakeAmt, (inp.shakeR2 - 1/2) * shakeAmt)
    else (0, 0)
  let shakeX := shake.1
  let shakeY := shake.2
  let bg := backgroundCmds cfg w h shakeX shakeY
  let bgImg := bgImageSectionCmds cfg inp.bgImage w h scaleFactor
  let ps ← particlesSectionE cfg inp.jm.pi beat w h scaleFactor
    inp.spawnRands inp.hueR inp.pickR inp.particles
  let sp ← spectrumSectionE cfg inp.jm inp.data beat w h cx cy
    scaleFactor shakeX shakeY inp.rotationAngle time2
  let ci ← centerImageSectionE cfg inp.jm inp.centerImage beat cx cy
    scaleFactor shakeX shakeY
  let tx := textSectionCmds cfg cx h scaleFactor shakeX shakeY
  let vg ← vignetteSectionE cfg w h
  let cin := cinematicCmds cfg w h
  Except.ok
    { cmds := bg ++ bgImg ++ [DrawCmd.restore] ++ ps.1 ++ sp.1 ++ ci
        ++ tx ++ vg ++ cin
      particles := ps.2
      rotationAngle := sp.2
      time := time2
      width := w
      height := h }

/-- Validity of one batch of `Math.random()` draws: raw draws lie in
[0, 1) and the supplied cosine/sine lie in [-1, 1]. -/
structure ValidSpawnRand (r : SpawnRand) : Prop where
  angleCos_lb : -1 ≤ r.angleCos
  angleCos_ub : r.angleCos ≤ 1
  angleSin_lb : -1 ≤ r.angleSin
  angleSin_ub : r.angleSin ≤ 1
  rVel_lb : 0 ≤ r.rVel
  rVel_ub : r.rVel < 1
  rSize_lb : 0 ≤ r.rSize
  rSize_ub : r.rSize < 1
  rLife_lb : 0 ≤ r.rLife
  rLife_ub : r.rLife < 1

/-- Validity of a scene configuration: every numeric field lies within
the range offered by the corresponding editor control. -/
structure ValidConfig (cfg : VisualizerConfig) : Prop where
  rotationSpeed_lb : 0 ≤ cfg.rotationSpeed
  rotationSpeed_ub : cfg.rotationSpeed ≤ 2
  sensitivity_lb : 1/2 ≤ cfg.sensitivity
  sensitivity_ub : cfg.sensitivity ≤ 3
  smoothing_lb : 1/10 ≤ cfg.smoothing
  smoothing_ub : cfg.smoothing ≤ 19/20
  shakeStrength_lb : 0 ≤ cfg.shakeStrength
  shakeStrength_ub : cfg.shakeStrength ≤ 5
  spectrumScale_lb : 1/2 ≤ cfg.spectrumScale
  spectrumScale_ub : cfg.spectrumScale ≤ 2
  barCount_lb : 32 ≤ cfg.barCount
  barCount_ub : cfg.barCount ≤ 256
  barWidth_lb : 1 ≤ cfg.barWidth
  barWidth_ub : cfg.barWidth ≤ 20
  barHeightScale_lb : 1/2 ≤ cfg.barHeightScale
  barHeightScale_ub : cfg.barHeightScale ≤ 3
  barRoundness_lb : 0 ≤ cfg.barRoundness
  barRoundness_ub : cfg.barRoundness ≤ 1
  fillOpacity_lb : 0 ≤ cfg.fillOpacity
  fillOpacity_ub : cfg.fillOpacity ≤ 1
  colorCycleSpeed_lb : 0 ≤ cfg.colorCycleSpeed
  colorCycleSpeed_ub : cfg.colorCycleSpeed ≤ 5
  bloomStrength_lb : 0 ≤ cfg.bloomStrength
  bloomStrength_ub : cfg.bloomStrength ≤ 50
  particleCount_lb : 10 ≤ cfg.particleCount
  particleCount_ub : cfg.particleCount ≤ 300
  particleSpeed_lb : 1/2 ≤ cfg.particleSpeed
  particleSpeed_ub : cfg.particleSpeed ≤ 5
  bgImageOpacity_lb : 0 ≤ cfg.bgImageOpacity
  bgImageOpacity_ub : cfg.bgImageOpacity ≤ 1
  bgImageBlur_lb : 0 ≤ cfg.bgImageBlur
  bgImageBlur_ub : cfg.bgImageBlur ≤ 20
  centerImageSize_lb : 1/5 ≤ cfg.centerImageSize
  centerImageSize_ub : cfg.centerImageSize ≤ 2
  vignette_lb : 0 ≤ cfg.vignette
  vignette_ub : cfg.vignette ≤ 1
  fontSize_lb : 20 ≤ cfg.text.fontSize
  fontSize_ub : cfg.text.fontSize ≤ 150
  letterSpacing_lb : 0 ≤ cfg.text.letterSpacing
  letterSpacing_ub : cfg.text.letterSpacing ≤ 50
  textOpacity_lb : 0 ≤ cfg.text.opacity
  textOpacity_ub : cfg.text.opacity ≤ 1

/-! ### Concrete scenarios used by counterexamples and witnesses -/

/-- A spawn-randomness draw with every component zero (a valid value of
`Math.random()` and of the cosine/sine pair). -/
def zeroRand : SpawnRand := ⟨0, 0, 0, 0, 0⟩

/-- The default configuration is the configuration of the sustained-beat
scenario: `particleCount = 50`, particles enabled. -/
def c1Cfg : VisualizerConfig := defaultConfig "track"

/-- One tick of the sustained-beat scenario: beat on every tick at the
preview resolution. -/
def c1Tick (ps : List Particle) : List Particle :=
  particlesTick c1Cfg true 1920 1080 1 (fun _ => zeroRand) 0 0 ps

/-- The particle population of the sustained-beat scenario after `n`
ticks, starting from no particles. -/
def c1Run : ℕ → List Particle
  | 0 => []
  | n + 1 => c1Tick (c1Run n)

/-- A serialized partial config carrying a top-level `primaryColor` and
a nested text overlay color. -/
def c4ParsedA : PartialConfig :=
  { primaryColor := some "#112233"
    text := some { color := some "#ff0000" } }

/-- A serialized partial config carrying only a top-level
`primaryColor` (no `text` member at all). -/
def c4ParsedB : PartialConfig :=
  { primaryColor := some "#112233" }

/-- Browser support for both probe-list entries. -/
def supBoth : CodecSupport := ⟨true, true⟩

/-- Browser support for neither probe-list entry. -/
def supNone : CodecSupport := ⟨false, false⟩

/-- The initial export settings of the component:
1080p, 60 fps, high quality. -/
def initialExportSettings : ExportSettings :=
  ⟨Resolution.r1080p, 60, Quality.high⟩

/-- The idle component state before any export: preview-resolution
canvas, no recorder, audible output. -/
def idleState : ExportState :=
  { canvasW := 1920
    canvasH := 1080
    recorder := none
    nextRecorderId := 0
    chunks := 0
    isExporting := false
    exportProgress := 0
    showExportModal := true
    hasDownload := false
    analyserToSpeakers := true
    audioTime := 0
    audioPlaying := false }

/-- State and result of a first, successful export start from idle. -/
def c2First : ExportState × StartResult :=
  handleStartExport supBoth initialExportSettings idleState

/-- The recorder constructed by that first start. -/
def c2Rec : Recorder :=
  { id := 0
    mimeType := "video/webm;codecs=vp9"
    videoBitsPerSecond := 25000000
    fps := 60
    state := RecState.recording }

/-- Result of a second start invoked while the first session is still
recording. -/
def c2Second : ExportState × StartResult :=
  handleStartExport supBoth initialExportSettings c2First.1

/-- A 4K export request. -/
def c3Settings : ExportSettings := ⟨Resolution.r4k, 60, Quality.high⟩

/-- Start attempted with no supported codec, from idle, at 4K. -/
def c3Result : ExportState × StartResult :=
  handleStartExport supNone c3Settings idleState

/-- The state right after a successful start of a 180-second export. -/
def c5Start : ExportState := c2First.1

/-- The last `checkProgress` poll of that export, at the moment the
current time has reached the full 180-second duration. -/
def c5AtEnd : ExportState := checkProgressTick 180 180 c5Start

/-- The state after the encoder finalizes (`onstop` fires). -/
def c5Final : ExportState := recorderOnStop c5AtEnd

/-- The default configuration with the particle layer disabled. -/
def cfgParticlesOff : VisualizerConfig :=
  { defaultConfig "track" with showParticles := false }

/-- A concrete live particle (positive life and maxLife). -/
def witnessParticle : Particle :=
  { x := 10, y := 20, vx := 1, vy := 2, size := 3, color := "#a855f7",
    life := 40, maxLife := 40 }

/-- Concrete stand-ins for the transcendental Math functions, used only
to evaluate witnesses. -/
def demoJsMath : JsMath := ⟨fun _ => 1, fun _ => 0, 355/113⟩

/-- A concrete frame input: default configuration, analyser not yet
ready, no images, no particles, preview canvas. -/
def demoInput : RenderInput :=
  { cfg := defaultConfig "demo"
    jm := demoJsMath
    data := []
    bgImage := none
    centerImage := none
    particles := []
    rotationAngle := 0
    time := 0
    recorderActive := false
    canvasW := 1920
    canvasH := 1080
    shakeR1 := 0
    shakeR2 := 0
    spawnRands := fun _ => zeroRand
    hueR := 0
    pickR := 0 }

/-! ### Spec-side merge (for the round-trip claim)

The specification states that merging a serialized partial config onto
the default reproduces the serialized value of every field present
(including nested text-overlay fields) and the default value of every
field absent.  The following two definitions follow those words; the
round-trip claim compares them with `mergeConfig`, the merge the code
actually performs. -/

/-- Spec-side merge of a partial text overlay: each nested field present
wins, each absent falls back to the default. -/
def specMergeText (dt : TextConfig) (pt : Option PartialTextConfig) :
    TextConfig :=
  match pt with
  | none => dt
  | some t =>
      { enabled := t.enabled.getD dt.enabled
        topText := t.topText.getD dt.topText
        bottomText := t.bottomText.getD dt.bottomText
        fontFamily := t.fontFamily.getD dt.fontFamily
        fontSize := t.fontSize.getD dt.fontSize
        color := t.color.getD dt.color
        opacity := t.opacity.getD dt.opacity
        letterSpacing := t.letterSpacing.getD dt.letterSpacing
        shadow := t.shadow.getD dt.shadow }

/-- Spec-side merge of a serialized partial config onto the default:
every field present in the serialized object is reproduced, every field
absent falls back to the default, including the nested text overlay. -/
def specMerge (d : VisualizerConfig) (p : PartialConfig) :
    VisualizerConfig where
  presetName := p.presetName.getD d.presetName
  mode := p.mode.getD d.mode
  primaryColor := p.primaryColor.getD d.primaryColor
  secondaryColor := p.secondaryColor.getD d.secondaryColor
  backgroundColor := p.backgroundColor.getD d.backgroundColor
  colorMode := p.colorMode.getD d.colorMode
  rainbowMode := p.rainbowMode.getD d.rainbowMode
  colorCycleSpeed := p.colorCycleSpeed.getD d.colorCycleSpeed
  sensitivity := p.sensitivity.getD d.sensitivity
  smoothing := p.smoothing.getD d.smoothing
  showBars := p.showBars.getD d.showBars
  spectrumStyle := p.spectrumStyle.getD d.spectrumStyle
  spectrumScale := p.spectrumScale.getD d.spectrumScale
  barCount := p.barCount.getD d.barCount
  barWidth := p.barWidth.getD d.barWidth
  barHeightScale := p.barHeightScale.getD d.barHeightScale
  barRoundness := p.barRoundness.getD d.barRoundness
  fillOpacity := p.fillOpacity.getD d.fillOpacity
  mirror := p.mirror.getD d.mirror
  showParticles := p.showParticles.getD d.showParticles
  particleCount := p.particleCount.getD d.particleCount
  particleSpeed := p.particleSpeed.getD d.particleSpeed
  bloomStrength := p.bloomStrength.getD d.bloomStrength
  rotationSpeed := p.rotationSpeed.getD d.rotationSpeed
  cinematicBars := p.cinematicBars.getD d.cinematicBars
  vignette := p.vignette.getD d.vignette
  shakeStrength := p.shakeStrength.getD d.shakeStrength
  backgroundImage := p.backgroundImage.getD d.backgroundImage
  bgImageOpacity := p.bgImageOpacity.getD d.bgImageOpacity
  bgImageBlur := p.bgImageBlur.getD d.bgImageBlur
  centerImage := p.centerImage.getD d.centerImage
  centerImageSize := p.centerImageSize.getD d.centerImageSize
  centerImageCircular := p.centerImageCircular.getD d.centerImageCircular
  text := specMergeText d.text p.text
  lyrics := p.lyrics.getD d.lyrics

/-! ### Helper lemmas -/

/-- The update/cull pass never grows the population. -/
theorem updateAndCull_length_le (ps : List Particle) :
    (updateAndCull ps).length ≤ ps.length := by
  induction ps with
  | nil => simp [updateAndCull]
  | cons p rest ih =>
      by_cases h : p.update.life ≤ 0
      · simpa [updateAndCull, h] using Nat.le_succ_of_le ih
      · simpa [updateAndCull, h] using ih

/-- Every survivor of the update/cull pass has positive remaining life
and is the update of some input particle. -/
theorem updateAndCull_mem {q : Particle} :
    ∀ {ps : List Particle}, q ∈ updateAndCull ps →
      0 < q.life ∧ ∃ r ∈ ps, q = r.update := by
  intro ps
  induction ps with
  | nil => intro hq; simp [updateAndCull] at hq
  | cons p rest ih =>
      intro hq
      by_cases h : p.update.life ≤ 0
      · rw [updateAndCull, if_pos h] at hq
        obtain ⟨h1, r, hr, he⟩ := ih hq
        exact ⟨h1, r, List.mem_cons_of_mem _ hr, he⟩
      · rw [updateAndCull, if_neg h] at hq
        rcases List.mem_cons.mp hq with he | hmem
        · exact ⟨he ▸ lt_of_not_le h, p, List.mem_cons_self _ _, he⟩
        · obtain ⟨h1, r, hr, hre⟩ := ih hmem
          exact ⟨h1, r, List.mem_cons_of_mem _ hr, hre⟩

/-- Length of the spawn step: three particles are appended exactly when
the beat fires while the population is under the cap. -/
theorem spawnStep_length (cfg : VisualizerConfig) (beat : Bool)
    (w h scale : ℚ) (rands : Fin 3 → SpawnRand) (rHue rPick : ℚ)
    (ps : List Particle) :
    (spawnStep cfg beat w h scale rands rHue rPick ps).length =
      (if beat ∧ ps.length < cfg.particleCount
       then ps.length + 3 else ps.length) := by
  by_cases h : beat = true ∧ ps.length < cfg.particleCount
  · simp [spawnStep, h, spawnBatch]
  · simp only [spawnStep]
    rw [if_neg (by simpa using h), if_neg (by simpa using h)]

/-- The per-tick particle pass keeps the population at or below
`particleCount + 2`. -/
theorem particlesTick_length_le (cfg : VisualizerConfig) (beat : Bool)
    (w h scale : ℚ) (rands : Fin 3 → SpawnRand) (rHue rPick : ℚ)
    (ps : List Particle) (hlen : ps.length ≤ cfg.particleCount + 2) :
    (particlesTick cfg beat w h scale rands rHue rPick ps).length ≤
      cfg.particleCount + 2 := by
  by_cases hshow : cfg.showParticles
  · rw [particlesTick, if_pos hshow]
    refine le_trans (updateAndCull_length_le _) ?_
    rw [spawnStep_length]
    by_cases h : beat = true ∧ ps.length < cfg.particleCount
    · rw [if_pos h]; omega
    · rw [if_neg h]; exact hlen
  · rw [particlesTick, if_neg hshow]; exact hlen

/-! ### Claim theorems -/

/-- C7: the beat signal is a stateless, deterministic per-tick function
of the current frequency snapshot: it depends only on the 10 lowest
bass bins (identical bass bands always yield identical beat booleans),
and it is true exactly when the bass average (sum of the 10 lowest bin
magnitudes divided by 10) exceeds the fixed threshold 210, with no
hysteresis or cross-tick memory. -/
theorem C7_beat_deterministic (d1 d2 : List ℕ)
    (h : ∀ i, i < 10 → d1.getD i 0 = d2.getD i 0) :
    beatSignal d1 = beatSignal d2 ∧
    (beatSignal d1 = true ↔ 210 < bassAverage d1) := by
  have h0 := h 0 (by norm_num)
  have h1 := h 1 (by norm_num)
  have h2 := h 2 (by norm_num)
  have h3 := h 3 (by norm_num)
  have h4 := h 4 (by norm_num)
  have h5 := h 5 (by norm_num)
  have h6 := h 6 (by norm_num)
  have h7 := h 7 (by norm_num)
  have h8 := h 8 (by norm_num)
  have h9 := h 9 (by norm_num)
  have e : bassAverage d1 = bassAverage d2 := by
    simp only [bassAverage, List.range_succ, List.range_zero,
      List.foldl_append, List.foldl_cons, List.foldl_nil, List.nil_append]
    rw [h0, h1, h2, h3, h4, h5, h6, h7, h8, h9]
  exact ⟨by simp [beatSignal, e], by simp [beatSignal]⟩

/-- C7 witness: the theorem applied to the concrete constant-220
snapshot. -/
theorem C7_witness :
    beatSignal (List.replicate 10 220) = beatSignal (List.replicate 10 220) ∧
    (beatSignal (List.replicate 10 220) = true ↔
      210 < bassAverage (List.replicate 10 220)) :=
  C7_beat_deterministic _ _ (fun _ _ => rfl)

/-- C8: each tick's update advances position by velocity, decrements
life by exactly 1, shrinks size by the fixed 0.98 factor and preserves
maxLife, so the rendered opacity `life / maxLife` strictly decreases
tick-over-tick; and every particle surviving a tick's update/removal
pass has positive remaining life (a particle whose life reached `≤ 0` is
removed during that same pass and never drawn on a later tick), each
survivor being the update of an input particle. -/
theorem C8_particle_update_fade (p : Particle) (ps : List Particle)
    (hml : 0 < p.maxLife) :
    p.update.x = p.x + p.vx ∧ p.update.y = p.y + p.vy ∧
    p.update.life = p.life - 1 ∧ p.update.size = p.size * (98/100) ∧
    p.update.maxLife = p.maxLife ∧
    p.update.life / p.maxLife < p.life / p.maxLife ∧
    (∀ q ∈ updateAndCull ps, 0 < q.life) ∧
    (∀ q ∈ updateAndCull ps, ∃ r ∈ ps, q = r.update) := by
  refine ⟨rfl, rfl, rfl, rfl, rfl, ?_, ?_, ?_⟩
  · have hlt : p.life - 1 < p.life := by linarith
    exact (div_lt_div_iff_of_pos_right hml).mpr hlt
  · exact fun q hq => (updateAndCull_mem hq).1
  · exact fun q hq => (updateAndCull_mem hq).2

/-- C8 witness: the theorem applied to a concrete live particle. -/
theorem C8_witness :
    0 < witnessParticle.maxLife ∧
    witnessParticle.update.life / witnessParticle.maxLife <
      witnessParticle.life / witnessParticle.maxLife :=
  ⟨by norm_num [witnessParticle],
   (C8_particle_update_fade witnessParticle [] (by norm_num [witnessParticle])).2.2.2.2.2.1⟩

/-- C10: when `showParticles` is false for a frame, the render pass
leaves the particle list completely unchanged (no spawn, no update, no
removal, and no draw command), so existing particles persist frozen and
resume aging from exactly that state once the layer is re-enabled. -/
theorem C10_particles_frozen_when_hidden (cfg : VisualizerConfig)
    (beat : Bool) (w h scale pi : ℚ) (rands : Fin 3 → SpawnRand)
    (rHue rPick : ℚ) (ps : List Particle)
    (hoff : cfg.showParticles = false) :
    particlesTick cfg beat w h scale rands rHue rPick ps = ps ∧
    particlesSectionE cfg pi beat w h scale rands rHue rPick ps =
      Except.ok ([], ps) := by
  constructor <;> simp [particlesTick, particlesSectionE, hoff]

/-- C10 witness: the theorem applied to the default configuration with
particles disabled and a concrete live particle. -/
theorem C10_witness :
    cfgParticlesOff.showParticles = false ∧
    particlesTick cfgParticlesOff true 1920 1080 1 (fun _ => zeroRand)
      0 0 [witnessParticle] = [witnessParticle] :=
  ⟨rfl,
   (C10_particles_frozen_when_hidden cfgParticlesOff true 1920 1080 1 0
     (fun _ => zeroRand) 0 0 [witnessParticle] rfl).1⟩

/-- When no updated particle has life `≤ 0`, the update/cull pass is a
plain map of the update. -/
theorem updateAndCull_all_alive :
    ∀ {ps : List Particle}, (∀ p ∈ ps, ¬ p.update.life ≤ 0) →
      updateAndCull ps = ps.map Particle.update := by
  intro ps
  induction ps with
  | nil => intro _; rfl
  | cons p rest ih =>
      intro h
      rw [updateAndCull, if_neg (h p (List.mem_cons_self _ _)),
        ih (fun q hq => h q (List.mem_cons_of_mem _ hq)), List.map_cons]

/-- A particle spawned from the all-zero randomness draw starts with
life 40 regardless of color, speed and scale. -/
theorem init_zeroRand_life (w h : ℚ) (c : Color) (sp sc : ℚ) :
    (Particle.init w h c sp sc zeroRand).life = 40 := by
  norm_num [Particle.init, zeroRand]

/-- Closed form of the sustained-beat scenario for its first 17 ticks:
the population grows by exactly three per tick (no particle can die
before tick 40, since every spawn starts at life 40). -/
theorem c1Run_spec :
    ∀ n, n ≤ 17 →
      (c1Run n).length = 3 * n ∧ ∀ p ∈ c1Run n, 40 - (n : ℚ) ≤ p.life := by
  intro n
  induction n with
  | zero => exact fun _ => ⟨rfl, by simp [c1Run]⟩
  | succ k ih =>
      intro hk
      obtain ⟨hlen, hlife⟩ := ih (Nat.le_of_succ_le hk)
      have hcap : (c1Run k).length < c1Cfg.particleCount := by
        rw [hlen]
        show 3 * k < 50
        omega
      have hspeq : spawnStep c1Cfg true 1920 1080 1 (fun _ => zeroRand)
            0 0 (c1Run k) =
          c1Run k ++ spawnBatch 1920 1080 (particleColor c1Cfg 0 0)
            c1Cfg.particleSpeed 1 (fun _ => zeroRand) := by
        rw [spawnStep, if_pos ⟨rfl, hcap⟩]
      have hall : ∀ p ∈ spawnStep c1Cfg true 1920 1080 1
          (fun _ => zeroRand) 0 0 (c1Run k), 40 - (k : ℚ) ≤ p.life := by
        rw [hspeq]
        intro p hp
        rcases List.mem_append.mp hp with h1 | h2
        · exact hlife p h1
        · have hk0 : (0 : ℚ) ≤ (k : ℚ) := Nat.cast_nonneg k
          have hfl : p.life = 40 := by
            simp only [spawnBatch] at h2
            rcases List.mem_cons.mp h2 with rfl | h2
            · exact init_zeroRand_life _ _ _ _ _
            rcases List.mem_cons.mp h2 with rfl | h2
            · exact init_zeroRand_life _ _ _ _ _
            rcases List.mem_cons.mp h2 with rfl | h2
            · exact init_zeroRand_life _ _ _ _ _
            · simp at h2
          linarith
      have halive : ∀ p ∈ spawnStep c1Cfg true 1920 1080 1
          (fun _ => zeroRand) 0 0 (c1Run k), ¬ p.update.life ≤ 0 := by
        intro p hp hle
        have h1 := hall p hp
        have h2 : p.update.life = p.life - 1 := rfl
        have hk16 : k ≤ 16 := by omega
        have hkq : (k : ℚ) ≤ 16 := by exact_mod_cast hk16
        rw [h2] at hle
        linarith
      have hstep : c1Run (k + 1) =
          (spawnStep c1Cfg true 1920 1080 1 (fun _ => zeroRand) 0 0
            (c1Run k)).map Particle.update := by
        rw [c1Run, c1Tick, particlesTick,
          if_pos (show c1Cfg.showParticles = true from rfl),
          updateAndCull_all_alive halive]
      constructor
      · rw [hstep, List.length_map, hspeq, List.length_append, hlen]
        show 3 * k + 3 = 3 * (k + 1)
        omega
      · intro p hp
        rw [hstep] at hp
        obtain ⟨q, hq, rfl⟩ := List.mem_map.mp hp
        have h1 := hall q hq
        have h2 : q.update.life = q.life - 1 := rfl
        rw [h2]
        push_cast
        linarith

/-- C1 counterexample: with `particleCount = 50` and a beat on every
tick, the population after 17 ticks of the sustained-beat scenario is
51, exceeding the configured cap (the spawn guard is checked before a
batch of three is appended, so the cap can be overshot by two). -/
theorem C1_counterexample : 50 < (c1Run 17).length := by
  rw [(c1Run_spec 17 le_rfl).1]
  norm_num

/-- C1 (amended): after each tick's spawn/update/removal pass the live
particle population is at most `particleCount + 2` (the spawn guard is
evaluated before appending the batch of three), each beat tick that
begins under the cap with particles enabled appends exactly the batch
of three, and the sustained-beat scenario with `particleCount = 50`
never exceeds 52 live particles. -/
theorem C1_population_bound (cfg : VisualizerConfig) (beat : Bool)
    (w h scale : ℚ) (rands : Fin 3 → SpawnRand) (rHue rPick : ℚ)
    (ps : List Particle) (hlen : ps.length ≤ cfg.particleCount + 2) :
    (particlesTick cfg beat w h scale rands rHue rPick ps).length ≤
      cfg.particleCount + 2 ∧
    (cfg.showParticles = true → beat = true →
      ps.length < cfg.particleCount →
      (spawnStep cfg beat w h scale rands rHue rPick ps).length =
        ps.length + 3) ∧
    (∀ n, (c1Run n).length ≤ 52) := by
  refine ⟨particlesTick_length_le _ _ _ _ _ _ _ _ _ hlen, ?_, ?_⟩
  · intro _ hbeat hcap
    rw [spawnStep_length, if_pos ⟨hbeat, hcap⟩]
  · intro n
    induction n with
    | zero => simp [c1Run]
    | succ k ih =>
        have hc : c1Cfg.particleCount = 50 := rfl
        have h := particlesTick_length_le c1Cfg true 1920 1080 1
          (fun _ => zeroRand) 0 0 (c1Run k) (by rw [hc]; omega)
        rw [hc] at h
        simpa [c1Run, c1Tick] using h

/-- C1 witness: the amended bound applied to the empty particle list
under the sustained-beat configuration. -/
theorem C1_witness :
    (([] : List Particle).length ≤ c1Cfg.particleCount + 2) ∧
    (particlesTick c1Cfg true 1920 1080 1 (fun _ => zeroRand) 0 0
      []).length ≤ c1Cfg.particleCount + 2 :=
  ⟨by decide,
   (C1_population_bound c1Cfg true 1920 1080 1 (fun _ => zeroRand) 0 0 []
     (by decide)).1⟩

/-- C4 counterexample: the overlay merge of `analyzeAudioForVisualizer`
does not satisfy the round-trip property.  With a serialized object
containing `primaryColor = "#112233"` and a nested
`text.color = "#ff0000"`, the merged text color is neither the
serialized nested value (the spec-side merge yields it) nor, with the
nested member absent, the default text color. -/
theorem C4_counterexample :
    (mergeConfig (defaultConfig "song") c4ParsedA).text.color ≠
      (specMerge (defaultConfig "song") c4ParsedA).text.color ∧
    (mergeConfig (defaultConfig "song") c4ParsedB).text.color ≠
      (defaultConfig "song").text.color := by
  constructor <;> decide

/-- C4 (amended): the merge reproduces the serialized value of every
top-level field present and the default of every top-level field
absent — it agrees with the spec-side merge — except the text overlay:
the merged text always equals the default text with its color replaced
by the serialized `primaryColor` when present and non-empty (and
`"#ffffff"` otherwise), so nested text-overlay fields of the serialized
object are ignored. -/
theorem C4_merge_overlay (d : VisualizerConfig) (p : PartialConfig) :
    mergeConfig d p =
      { specMerge d p with
        text := { d.text with
          color := jsOrString p.primaryColor "#ffffff" } } :=
  rfl

/-- C2 counterexample: with a session already recording (the state after
a successful start from idle), invoking the export start operation again
returns `started` — no "capture already in progress" error — and
installs a different, second recorder over the reference to the
first. -/
theorem C2_counterexample :
    c2First.2 = StartResult.started ∧
    c2First.1.recorder.map Recorder.state = some RecState.recording ∧
    c2Second.2 = StartResult.started ∧
    c2Second.1.recorder ≠ c2First.1.recorder := by
  refine ⟨rfl, rfl, rfl, ?_⟩
  decide

/-- C2 (amended): `handleStartExport` performs no active-session check:
invoked while a recorder is recording (with the vp9 codec supported), it
succeeds and constructs and starts a second encoder, overwriting the
reference to the first (re-entry is prevented only by the full-screen
exporting overlay of the UI). -/
theorem C2_start_while_active (sup : CodecSupport) (st : ExportSettings)
    (s : ExportState) (r : Recorder) (hvp9 : sup.vp9 = true)
    (hrec : s.recorder = some r)
    (hrecording : r.state = RecState.recording)
    (hfresh : r.id < s.nextRecorderId) :
    (handleStartExport sup st s).2 = StartResult.started ∧
    ∃ r2, (handleStartExport sup st s).1.recorder = some r2 ∧
      r2.state = RecState.recording ∧ r2.id = s.nextRecorderId ∧
      r2 ≠ r := by
  have h1 : ¬ (¬ sup.vp9 ∧ ¬ sup.webm) := by simp [hvp9]
  have h2 : ¬ (¬ sup.vp9 ∧ sup.webm) := by simp [hvp9]
  simp only [handleStartExport]
  rw [if_neg h1, if_neg h2]
  refine ⟨rfl, ⟨_, rfl, rfl, rfl, fun heq => ?_⟩⟩
  have hid := congrArg Recorder.id heq
  simp only at hid
  omega

/-- C2 witness: the amended theorem applied to the state of an active
first session. -/
theorem C2_witness :
    supBoth.vp9 = true ∧ c2First.1.recorder = some c2Rec ∧
    c2Rec.state = RecState.recording ∧
    c2Rec.id < c2First.1.nextRecorderId ∧
    (handleStartExport supBoth initialExportSettings c2First.1).2 =
      StartResult.started :=
  ⟨rfl, by decide, rfl, by decide,
   (C2_start_while_active supBoth initialExportSettings c2First.1 c2Rec
     rfl (by decide) rfl (by decide)).1⟩

/-- C3 counterexample: with neither probe-list codec supported, a 4K
start fails with the unsupported alert, but the canvas is left at the
export resolution (3840 wide), not at the preview resolution, because
the resize happens before the codec probe and the failure path does not
undo it. -/
theorem C3_counterexample :
    c3Result.2 = StartResult.unsupportedAlert ∧
    c3Result.1.canvasW ≠ 1920 := by
  refine ⟨rfl, ?_⟩
  decide

/-- C3 (amended): with no supported codec, a start from idle fails
immediately with the unsupported alert, starts no encoder, leaves the
exporting flag off and the chunk buffer and download state untouched;
the canvas, however, is left at the requested export resolution by
`handleStartExport` itself, and it is the next render tick (seeing no
active recorder) that restores the 1920x1080 preview resolution. -/
theorem C3_unsupported_fails_to_idle (sup : CodecSupport)
    (st : ExportSettings) (s : ExportState) (hv : sup.vp9 = false)
    (hw : sup.webm = false) (hrec : s.recorder = none) :
    (handleStartExport sup st s).2 = StartResult.unsupportedAlert ∧
    (handleStartExport sup st s).1.isExporting = false ∧
    (handleStartExport sup st s).1.recorder = none ∧
    (handleStartExport sup st s).1.chunks = s.chunks ∧
    (handleStartExport sup st s).1.hasDownload = s.hasDownload ∧
    (handleStartExport sup st s).1.canvasW =
      (resolutionDims st.resolution).1 ∧
    (handleStartExport sup st s).1.canvasH =
      (resolutionDims st.resolution).2 ∧
    renderLoopDims (handleStartExport sup st s).1.recorder
      ((handleStartExport sup st s).1.canvasW,
       (handleStartExport sup st s).1.canvasH) = (1920, 1080) := by
  have h1 : (¬ sup.vp9 ∧ ¬ sup.webm) := by simp [hv, hw]
  simp [handleStartExport, h1, hrec, renderLoopDims]

/-- C3 witness: the amended theorem applied to the no-codec 4K start
from idle. -/
theorem C3_witness :
    supNone.vp9 = false ∧ supNone.webm = false ∧
    idleState.recorder = none ∧
    (handleStartExport supNone c3Settings idleState).2 =
      StartResult.unsupportedAlert :=
  ⟨rfl, rfl, rfl,
   (C3_unsupported_fails_to_idle supNone c3Settings idleState rfl rfl
     rfl).1⟩

/-- C5 counterexample: at the end of a 180-second export the last poll
stores `min(100, 99) = 99`, and the `onstop` finalization exposes the
download and clears the exporting state without ever setting the
progress to 100. -/
theorem C5_counterexample :
    c5Final.hasDownload = true ∧ c5Final.isExporting = false ∧
    c5Final.exportProgress = 99 ∧ ¬ c5Final.exportProgress = 100 := by
  have h99 : c5Final.exportProgress = 99 := by
    show progressValue 180 180 = 99
    rw [progressValue]
    norm_num
  refine ⟨rfl, rfl, h99, by rw [h99]; norm_num⟩

/-- C5 (amended): while recording, each 100ms poll stores exactly
`min((currentTime / duration) * 100, 99)`, which is nonnegative,
monotone in the current time and clamped at 99; the `onstop`
finalization leaves the progress value unchanged (it never reaches 100 —
finalization dismisses the exporting overlay instead). -/
theorem C5_progress_clamped (t1 t2 dur : ℚ) (s : ExportState)
    (hdur : 0 < dur) (h12 : t1 ≤ t2) (ht : 0 ≤ t1) :
    (checkProgressTick t1 dur s).exportProgress =
      min (t1 / dur * 100) 99 ∧
    0 ≤ (checkProgressTick t1 dur s).exportProgress ∧
    (checkProgressTick t1 dur s).exportProgress ≤
      (checkProgressTick t2 dur s).exportProgress ∧
    (checkProgressTick t1 dur s).exportProgress ≤ 99 ∧
    (recorderOnStop s).exportProgress = s.exportProgress := by
  refine ⟨rfl, ?_, ?_, ?_, rfl⟩
  · show (0 : ℚ) ≤ min (t1 / dur * 100) 99
    exact le_min (by positivity) (by norm_num)
  · show min (t1 / dur * 100) 99 ≤ min (t2 / dur * 100) 99
    have hd : t1 / dur ≤ t2 / dur :=
      (div_le_div_iff_of_pos_right hdur).mpr h12
    exact min_le_min (mul_le_mul_of_nonneg_right hd (by norm_num)) le_rfl
  · show min (t1 / dur * 100) 99 ≤ 99
    exact min_le_right _ _

/-- C5 witness: the amended theorem applied to two polls of a
180-second export. -/
theorem C5_witness :
    (0 : ℚ) < 180 ∧ (10 : ℚ) ≤ 20 ∧ (0 : ℚ) ≤ 10 ∧
    (checkProgressTick 10 180 idleState).exportProgress ≤ 99 :=
  ⟨by norm_num, by norm_num, by norm_num,
   (C5_progress_clamped 10 20 180 idleState (by norm_num) (by norm_num)
     (by norm_num)).2.2.2.1⟩

/-- C6: cancelling an active capture session stops the recorder, leaves
the exporting state and reconnects the analyser output to the speakers;
when the stopped recorder's `onstop` handler fires it resets the canvas
to the 1920x1080 preview resolution (and every later render tick keeps
it there, since the recorder is inactive), so the canvas is never left
permanently at the export resolution. -/
theorem C6_cancel_restores (s : ExportState) (r : Recorder)
    (hrec : s.recorder = some r)
    (hst : r.state = RecState.recording) :
    (cancelExport s).isExporting = false ∧
    (cancelExport s).analyserToSpeakers = true ∧
    (recorderOnStop (cancelExport s)).canvasW = 1920 ∧
    (recorderOnStop (cancelExport s)).canvasH = 1080 ∧
    (recorderOnStop (cancelExport s)).analyserToSpeakers = true ∧
    renderLoopDims (recorderOnStop (cancelExport s)).recorder
      ((recorderOnStop (cancelExport s)).canvasW,
       (recorderOnStop (cancelExport s)).canvasH) = (1920, 1080) := by
  simp [cancelExport, recorderOnStop, hrec, hst, renderLoopDims]

/-- C6 witness: the theorem applied to the state of an active session. -/
theorem C6_witness :
    c2First.1.recorder = some c2Rec ∧
    c2Rec.state = RecState.recording ∧
    (recorderOnStop (cancelExport c2First.1)).canvasW = 1920 :=
  ⟨by decide, rfl,
   (C6_cancel_restores c2First.1 c2Rec (by decide) rfl).2.2.1⟩

/-! ### Totality of the renderer (no canvas call throws) -/

/-- A JavaScript-or with nonnegative operand and default is
nonnegative. -/
theorem jsOrQ_nonneg {v d : ℚ} (hv : 0 ≤ v) (hd : 0 ≤ d) :
    0 ≤ jsOrQ v d := by
  rw [jsOrQ]
  split <;> assumption

/-- `arc` succeeds on a nonnegative radius. -/
theorem arcCmd_ok {x y r a1 a2 : ℚ} {ccw : Bool} (h : 0 ≤ r) :
    arcCmd x y r a1 a2 ccw = Except.ok (DrawCmd.arc x y r a1 a2 ccw) := by
  rw [arcCmd, if_neg (not_lt.mpr h)]

/-- `roundRect` succeeds whenever every corner radius is nonnegative. -/
theorem roundRectCmd_ok {x rw' : ℚ} {yh : Option (ℚ × ℚ)}
    {radii : List ℚ} (h : ∀ r ∈ radii, 0 ≤ r) :
    ∃ cmds, roundRectCmd x yh rw' radii = Except.ok cmds := by
  cases yh with
  | none => exact ⟨[], rfl⟩
  | some p =>
      have hany : radii.any (fun r => r < 0) = false := by
        rw [List.any_eq_false]
        intro r hr
        simpa using not_lt.mpr (h r hr)
      simp only [roundRectCmd, hany]
      exact ⟨_, rfl⟩

/-- `createRadialGradient` succeeds on nonnegative radii. -/
theorem radialGradient_ok {r0 r1 : ℚ} {c1 c2 : String} (h0 : 0 ≤ r0)
    (h1 : 0 ≤ r1) :
    radialGradient r0 r1 c1 c2 = Except.ok (FillStyle.radialGrad c1 c2) := by
  rw [radialGradient, if_neg]
  intro hc
  rcases hc with hc | hc
  · exact absurd hc (not_lt.mpr h0)
  · exact absurd hc (not_lt.mpr h1)

/-- A particle's size stays nonnegative across an update. -/
theorem update_size_nonneg {p : Particle} (h : 0 ≤ p.size) :
    0 ≤ p.update.size :=
  mul_nonneg h (by norm_num)

/-- The particle draw/cull loop issues no throwing call when every
particle size is nonnegative. -/
theorem drawCullE_ok (pi : ℚ) :
    ∀ (ps : List Particle), (∀ p ∈ ps, 0 ≤ p.size) →
      ∃ out, drawCullE pi ps = Except.ok out := by
  intro ps
  induction ps with
  | nil => exact fun _ => ⟨([], []), rfl⟩
  | cons p rest ih =>
      intro h
      have hsz : 0 ≤ p.update.size :=
        update_size_nonneg (h p (List.mem_cons_self _ _))
      obtain ⟨out, hout⟩ := ih (fun q hq => h q (List.mem_cons_of_mem _ hq))
      simp only [drawCullE, arcCmd_ok hsz, hout]
      exact ⟨_, rfl⟩

/-- Particles spawned from valid randomness draws at a nonnegative
scale have nonnegative sizes. -/
theorem spawnStep_sizes (cfg : VisualizerConfig) (beat : Bool)
    (w h scale : ℚ) (rands : Fin 3 → SpawnRand) (rHue rPick : ℚ)
    (ps : List Particle) (hscale : 0 ≤ scale)
    (hrand : ∀ i, ValidSpawnRand (rands i))
    (hps : ∀ p ∈ ps, 0 ≤ p.size) :
    ∀ p ∈ spawnStep cfg beat w h scale rands rHue rPick ps,
      0 ≤ p.size := by
  intro p hp
  rw [spawnStep] at hp
  split at hp
  · rcases List.mem_append.mp hp with h1 | h2
    · exact hps p h1
    · have hsize : ∀ i, 0 ≤ (Particle.init w h
          (particleColor cfg rHue rPick) cfg.particleSpeed scale
          (rands i)).size := by
        intro i
        have hr := (hrand i).rSize_lb
        show 0 ≤ ((rands i).rSize * 4 + 1) * scale
        have : (0 : ℚ) ≤ (rands i).rSize * 4 + 1 := by linarith
        exact mul_nonneg this hscale
      simp only [spawnBatch] at h2
      rcases List.mem_cons.mp h2 with rfl | h2
      · exact hsize 0
      rcases List.mem_cons.mp h2 with rfl | h2
      · exact hsize 1
      rcases List.mem_cons.mp h2 with rfl | h2
      · exact hsize 2
      · simp at h2
  · exact hps p hp

/-- The particles section issues no throwing call under valid
randomness, nonnegative scale and nonnegative input sizes. -/
theorem particlesSectionE_ok (cfg : VisualizerConfig) (pi : ℚ)
    (beat : Bool) (w h scale : ℚ) (rands : Fin 3 → SpawnRand)
    (rHue rPick : ℚ) (ps : List Particle) (hscale : 0 ≤ scale)
    (hrand : ∀ i, ValidSpawnRand (rands i))
    (hps : ∀ p ∈ ps, 0 ≤ p.size) :
    ∃ out, particlesSectionE cfg pi beat w h scale rands rHue rPick ps =
      Except.ok out := by
  rw [particlesSectionE]
  split
  · exact drawCullE_ok pi _
      (spawnStep_sizes cfg beat w h scale rands rHue rPick ps hscale
        hrand hps)
  · exact ⟨([], ps), rfl⟩

/-- The center-asset section issues no throwing call when the configured
size fraction and the scale factor are nonnegative. -/
theorem centerImageSectionE_ok (cfg : VisualizerConfig) (jm : JsMath)
    (centerImg : Option (ℚ × ℚ)) (beat : Bool)
    (cx cy scale shakeX shakeY : ℚ) (hcis : 0 ≤ cfg.centerImageSize)
    (hscale : 0 ≤ scale) :
    ∃ cmds, centerImageSectionE cfg jm centerImg beat cx cy scale
      shakeX shakeY = Except.ok cmds := by
  have hsize : 0 ≤ 350 * cfg.centerImageSize * scale *
      (if beat then (103 : ℚ)/100 else 1) / 2 := by
    have h1 : 0 ≤ 350 * cfg.centerImageSize * scale :=
      mul_nonneg (mul_nonneg (by norm_num) hcis) hscale
    have h2 : 0 ≤ (if beat then (103 : ℚ)/100 else 1) := by
      split <;> norm_num
    positivity
  rcases centerImg with _ | img
  · exact ⟨[], rfl⟩
  rcases hci : cfg.centerImage with _ | s
  · simp only [centerImageSectionE, hci]
    exact ⟨_, rfl⟩
  · by_cases hc : cfg.centerImageCircular = true
    · simp only [centerImageSectionE, hci, hc, if_true, arcCmd_ok hsize]
      exact ⟨_, rfl⟩
    · simp only [Bool.not_eq_true] at hc
      simp only [centerImageSectionE, hci, hc]
      exact ⟨_, rfl⟩

/-- The vignette section issues no throwing call at a nonnegative frame
height. -/
theorem vignetteSectionE_ok (cfg : VisualizerConfig) (w h : ℚ)
    (hh : 0 ≤ h) :
    ∃ cmds, vignetteSectionE cfg w h = Except.ok cmds := by
  rw [vignetteSectionE]
  split
  · simp only [radialGradient_ok (by linarith : (0:ℚ) ≤ h / 2) hh]
    exact ⟨_, rfl⟩
  · exact ⟨[], rfl⟩

/-- Sequencing a succeeding computation into an always-succeeding
continuation succeeds. -/
theorem bind_ok_of_ok {α β : Type} {x : Except String α}
    {k : α → Except String β} (hx : ∃ a, x = Except.ok a)
    (hk : ∀ a, ∃ b, k a = Except.ok b) :
    ∃ b, (x >>= k) = Except.ok b := by
  obtain ⟨a, ha⟩ := hx
  obtain ⟨b, hb⟩ := hk a
  exact ⟨b, by rw [ha]; exact hb⟩

/-- A loop whose every iteration succeeds succeeds. -/
theorem forLoopE_ok (f : ℕ → Except String (List DrawCmd)) :
    ∀ (l : List ℕ), (∀ i ∈ l, ∃ y, f i = Except.ok y) →
      ∃ ys, forLoopE f l = Except.ok ys := by
  intro l
  induction l with
  | nil => exact fun _ => ⟨[], rfl⟩
  | cons i rest ih =>
      intro h
      rw [forLoopE]
      exact bind_ok_of_ok (h i (List.mem_cons_self _ _))
        (fun y => bind_ok_of_ok
          (ih (fun j hj => h j (List.mem_cons_of_mem _ hj)))
          (fun ys => ⟨_, rfl⟩))

/-- One linear bar issues no throwing call when the bar width, the
audio-reactive factors and the scale are nonnegative (the corner radius
is then nonnegative, and a NaN mirror height only suppresses the
rectangle). -/
theorem linearBarE_ok (cfg : VisualizerConfig) (data : List ℕ)
    (barsToRender step : ℕ) (barW h scale time : ℚ)
    (fillStyleBase : FillStyle) (i : ℕ) (hbarW : 0 ≤ barW)
    (hsens : 0 ≤ cfg.sensitivity) (hhs : 0 ≤ cfg.barHeightScale)
    (hss : 0 ≤ cfg.spectrumScale) (hscale : 0 ≤ scale) :
    ∃ cmds, linearBarE cfg data barsToRender step barW h scale time
      fillStyleBase i = Except.ok cmds := by
  have hval : (0:ℚ) ≤
      (if data.length ≠ 0 then ((data.getD (i * step) 0 : ℕ) : ℚ)
       else 10) := by
    split
    · exact Nat.cast_nonneg _
    · norm_num
  have hbarH : (0:ℚ) ≤
      (if data.length ≠ 0 then ((data.getD (i * step) 0 : ℕ) : ℚ)
       else 10) * cfg.sensitivity * cfg.barHeightScale * 3
        * jsOrQ cfg.spectrumScale 1 * scale := by
    have h1 := jsOrQ_nonneg hss (le_of_lt one_pos)
    positivity
  have hr : ∀ (bh : ℚ), 0 ≤ bh →
      (0:ℚ) ≤ (if cfg.barRoundness > 1/2 then min barW bh / 2 else 0) := by
    intro bh hbh
    split
    · have := le_min hbarW hbh
      linarith
    · norm_num
  rw [linearBarE]
  by_cases hm : cfg.mirror = true
  · simp only [hm, if_true]
    refine bind_ok_of_ok (roundRectCmd_ok ?_) (fun a => ⟨_, rfl⟩)
    intro r hrm
    simp only [List.mem_singleton] at hrm
    subst hrm
    exact hr _ hbarH
  · simp only [Bool.not_eq_true] at hm
    simp only [hm, Bool.false_eq_true, if_false]
    refine bind_ok_of_ok (roundRectCmd_ok ?_) (fun a => ⟨_, rfl⟩)
    intro r hrm
    have hrr := hr _ hbarH
    simp only [List.mem_cons, List.not_mem_nil, or_false] at hrm
    rcases hrm with rfl | rfl | rfl | rfl
    · exact hrr
    · exact hrr
    · norm_num
    · norm_num

/-- The whole linear bars branch succeeds. -/
theorem linearBarsE_ok (cfg : VisualizerConfig) (data : List ℕ)
    (barsToRender step : ℕ) (barW h scale time : ℚ)
    (fillStyleBase : FillStyle) (hbarW : 0 ≤ barW)
    (hsens : 0 ≤ cfg.sensitivity) (hhs : 0 ≤ cfg.barHeightScale)
    (hss : 0 ≤ cfg.spectrumScale) (hscale : 0 ≤ scale) :
    ∃ cmds, linearBarsE cfg data barsToRender step barW h scale time
      fillStyleBase = Except.ok cmds := by
  rw [linearBarsE]
  exact forLoopE_ok _ _ (fun i _ =>
    linearBarE_ok cfg data barsToRender step barW h scale time
      fillStyleBase i hbarW hsens hhs hss hscale)

/-- The circular wave/curve branch succeeds on a nonnegative ring
radius. -/
theorem circularWaveCurveE_ok (cfg : VisualizerConfig) (jm : JsMath)
    (data : List ℕ) (barsToRender step : ℕ)
    (radius scaledBarWidth scale time : ℚ) (fillStyleBase : FillStyle)
    (hrad : 0 ≤ radius) :
    ∃ cmds, circularWaveCurveE cfg jm data barsToRender step radius
      scaledBarWidth scale time fillStyleBase = Except.ok cmds := by
  rw [circularWaveCurveE]
  by_cases hs : cfg.spectrumStyle = SpectrumStyle.curve
  · rw [if_pos hs]
    exact bind_ok_of_ok ⟨_, arcCmd_ok hrad⟩ (fun a => ⟨_, rfl⟩)
  · rw [if_neg hs]
    exact ⟨_, rfl⟩

/-- The spectrum section issues no throwing call when the frame width,
the audio-reactive factors and the scale factor are nonnegative. -/
theorem spectrumSectionE_ok (cfg : VisualizerConfig) (jm : JsMath)
    (data : List ℕ) (beat : Bool)
    (w h cx cy scale shakeX shakeY rotationAngle time : ℚ)
    (hw : 0 ≤ w) (hsens : 0 ≤ cfg.sensitivity)
    (hhs : 0 ≤ cfg.barHeightScale) (hss : 0 ≤ cfg.spectrumScale)
    (hscale : 0 ≤ scale) :
    ∃ out, spectrumSectionE cfg jm data beat w h cx cy scale shakeX
      shakeY rotationAngle time = Except.ok out := by
  simp only [spectrumSectionE]
  by_cases hb : cfg.showBars = true
  · rw [if_pos hb]
    have hrad : (0:ℚ) ≤ 300 * jsOrQ cfg.spectrumScale 1 * scale :=
      mul_nonneg
        (mul_nonneg (by norm_num) (jsOrQ_nonneg hss (by norm_num)))
        hscale
    by_cases hm : cfg.mode = Mode.circular
    · rw [if_pos hm]
      by_cases hwv : (cfg.spectrumStyle = SpectrumStyle.wave
          ∨ cfg.spectrumStyle = SpectrumStyle.curve)
      · rw [if_pos hwv]
        exact bind_ok_of_ok
          (circularWaveCurveE_ok _ _ _ _ _ _ _ _ _ _ hrad)
          (fun body => ⟨_, rfl⟩)
      · rw [if_neg hwv]
        exact ⟨_, rfl⟩
    · rw [if_neg hm]
      by_cases hwv : (cfg.spectrumStyle = SpectrumStyle.wave
          ∨ cfg.spectrumStyle = SpectrumStyle.curve)
      · rw [if_pos hwv]
        exact ⟨_, rfl⟩
      · rw [if_neg hwv]
        exact bind_ok_of_ok
          (linearBarsE_ok _ _ _ _ _ _ _ _ _
            (div_nonneg hw (Nat.cast_nonneg _)) hsens hhs hss hscale)
          (fun body => ⟨_, rfl⟩)
  · rw [if_neg hb]
    exact ⟨_, rfl⟩

/-- C9: for every valid scene configuration (all numeric fields within
their editor ranges) — including all optional assets absent and all
boolean layers disabled — for every frequency snapshot including the
empty not-yet-ready one, for every particle list with nonnegative sizes
(an invariant of the particle subsystem), valid randomness draws and a
positive canvas, one invocation of the per-frame render function
completes without throwing. -/
theorem C9_render_never_throws (inp : RenderInput)
    (hcfg : ValidConfig inp.cfg)
    (hps : ∀ p ∈ inp.particles, 0 ≤ p.size)
    (hrand : ∀ i, ValidSpawnRand (inp.spawnRands i))
    (hw : 0 < inp.canvasW) (hh : 0 < inp.canvasH) :
    ∃ out, render inp = Except.ok out := by
  have hwpos : (0:ℚ) ≤ (if ¬ inp.recorderActive
      then ((1920:ℚ), (1080:ℚ))
      else (inp.canvasW, inp.canvasH)).1 := by
    split
    · norm_num
    · exact le_of_lt hw
  have hhpos : (0:ℚ) ≤ (if ¬ inp.recorderActive
      then ((1920:ℚ), (1080:ℚ))
      else (inp.canvasW, inp.canvasH)).2 := by
    split
    · norm_num
    · exact le_of_lt hh
  have hsf : (0:ℚ) ≤ (if ¬ inp.recorderActive
      then ((1920:ℚ), (1080:ℚ))
      else (inp.canvasW, inp.canvasH)).1 / 1920 :=
    div_nonneg hwpos (by norm_num)
  have hsens : 0 ≤ inp.cfg.sensitivity :=
    le_trans (by norm_num) hcfg.sensitivity_lb
  have hhs : 0 ≤ inp.cfg.barHeightScale :=
    le_trans (by norm_num) hcfg.barHeightScale_lb
  have hss : 0 ≤ inp.cfg.spectrumScale :=
    le_trans (by norm_num) hcfg.spectrumScale_lb
  have hcis : 0 ≤ inp.cfg.centerImageSize :=
    le_trans (by norm_num) hcfg.centerImageSize_lb
  simp only [render]
  refine bind_ok_of_ok
    (particlesSectionE_ok _ _ _ _ _ _ _ _ _ _ hsf hrand hps)
    (fun ps => ?_)
  refine bind_ok_of_ok
    (spectrumSectionE_ok _ _ _ _ _ _ _ _ _ _ _ _ _ hwpos hsens hhs hss
      hsf)
    (fun sp => ?_)
  refine bind_ok_of_ok
    (centerImageSectionE_ok _ _ _ _ _ _ _ _ _ hcis hsf)
    (fun ci => ?_)
  refine bind_ok_of_ok (vignetteSectionE_ok _ _ _ hhpos) (fun vg => ?_)
  exact ⟨_, rfl⟩

/-- C9 witness: the theorem applied to the concrete frame input with
the default configuration and the not-yet-ready snapshot. -/
theorem C9_witness :
    ValidConfig demoInput.cfg ∧ (∃ out, render demoInput = Except.ok out) :=
  ⟨by constructor <;> norm_num [demoInput, defaultConfig],
   C9_render_never_throws demoInput
     (by constructor <;> norm_num [demoInput, defaultConfig])
     (by simp [demoInput])
     (fun i => by constructor <;> norm_num [demoInput, zeroRand])
     (by norm_num [demoInput]) (by norm_num [demoInput])⟩

end VibeStream
